import Mathlib

/-!
Verification of the BSAMS statistical / training-load core against its
natural-language specification.

The definitions below are a shallow embedding of the Python sources:
  * `src/backend/app/services/stat_engine.py`       (class `StatEngine`)
  * `src/backend/app/services/training_load.py`     (class `TrainingLoadEngine`)
  * `src/backend/app/services/csv_ingestion.py`     (class `CSVIngestionService`)
  * `src/backend/app/routers/analysis.py`           (benchmark / Z-score endpoints)
  * `src/backend/app/schemas/upload.py`             (`CSVColumnMapping`, `RowError`)

Numeric values are modelled as exact rationals (`ℚ`); quantities the code
obtains through `math.sqrt` / `** 0.5` live in `ℝ` via `Real.sqrt`.
Python's `round(x, n)` (banker's rounding) is modelled exactly on the
idealized rational/real value; binary floating-point representation
effects are outside the model.
-/

deriving instance DecidableEq for Except

namespace BSAMS

/-- Round-half-to-even on the integer scale, the semantics of Python's
built-in `round` for the tie case: nearest integer, ties to the even one. -/
def halfEven {α : Type*} [LinearOrderedField α] [FloorRing α] (x : α) : ℤ :=
  if Int.fract x < 1 / 2 then ⌊x⌋
  else if 1 / 2 < Int.fract x then ⌊x⌋ + 1
  else if ⌊x⌋ % 2 = 0 then ⌊x⌋ else ⌊x⌋ + 1

/-- Python `round(x, 2)`: round to 2 decimal places, ties to even. -/
def round2 {α : Type*} [LinearOrderedField α] [FloorRing α] (x : α) : α :=
  (halfEven (x * 100) : α) / 100

/-- Python `round(x, 1)`: round to 1 decimal place, ties to even. -/
def round1 {α : Type*} [LinearOrderedField α] [FloorRing α] (x : α) : α :=
  (halfEven (x * 10) : α) / 10

end BSAMS

namespace StatEngine

open BSAMS

/-- `StatEngine.calculate_mean`: arithmetic mean rounded to 2 decimal
places, `None` on the empty list. -/
def calculate_mean (values : List ℚ) : Option ℚ :=
  if values = [] then none
  else some (round2 (values.sum / values.length))

/-- The unrounded arithmetic mean `sum(values) / len(values)` that the
source computes as an intermediate value. -/
def rawMean (values : List ℚ) : ℚ := values.sum / values.length

/-- The unrounded variance `sum((x - mean)**2 for x) / divisor` computed by
`calculate_std_dev`, with divisor `n` (population) or `n - 1` (sample). -/
def rawVariance (values : List ℚ) (population : Bool) : ℚ :=
  let m := rawMean values
  (values.map (fun x => (x - m) ^ 2)).sum /
    (if population then (values.length : ℚ) else (values.length : ℚ) - 1)

/-- `StatEngine.calculate_std_dev`: `None` on the empty list, `0.0` for a
single element (returned before any divisor is formed), otherwise
`round(sqrt(variance), 2)` with the population (`N`) or sample (`N-1`)
divisor. -/
noncomputable def calculate_std_dev (values : List ℚ) (population : Bool) : Option ℝ :=
  if values = [] then none
  else if values.length = 1 then some 0
  else some (round2 (Real.sqrt ((rawVariance values population : ℚ) : ℝ)))

/-- Minimum of a non-empty list, `min(modes)` in the source. -/
def listMin : List ℚ → Option ℚ
  | [] => none
  | x :: xs => some (xs.foldl min x)

/-- `StatEngine.calculate_mode`: values are rounded to 1 decimal place,
frequencies counted, and the smallest value among those with the maximal
frequency is returned (passed through `_round`); `None` on the empty list. -/
def calculate_mode (values : List ℚ) : Option ℚ :=
  if values = [] then none
  else
    let rounded := values.map round1
    let maxCount := (rounded.map (fun v => rounded.count v)).foldr max 0
    let modes := rounded.filter (fun v => rounded.count v = maxCount)
    (listMin modes).map round2

/-- `StatEngine.calculate_confidence_interval_95`: `None` for fewer than 2
values; otherwise uses the SAMPLE standard deviation (as produced by
`calculate_std_dev`, i.e. already rounded to 2 decimal places) for the
standard error; if that standard deviation is 0 (or `None`) the rounded
mean is returned for both bounds, else `mean ± 1.96 * (sd / sqrt n)` with
each bound rounded to 2 decimal places. -/
noncomputable def calculate_confidence_interval_95 (values : List ℚ) :
    Option (ℝ × ℝ) :=
  if values = [] ∨ values.length < 2 then none
  else
    let m : ℚ := rawMean values
    match calculate_std_dev values false with
    | none => some (round2 ((m : ℝ)), round2 ((m : ℝ)))
    | some sd =>
      if sd = 0 then some (round2 ((m : ℝ)), round2 ((m : ℝ)))
      else
        let se : ℝ := sd / Real.sqrt (values.length : ℝ)
        let margin : ℝ := 196 / 100 * se
        some (round2 ((m : ℝ) - margin), round2 ((m : ℝ) + margin))

/-- `StatEngine.calculate_z_score`: `(value - mean) / std_dev` rounded to
2 decimal places, and exactly `0.0` when `std_dev == 0`. -/
noncomputable def calculate_z_score (value mean std_dev : ℝ) : ℝ :=
  if std_dev = 0 then 0 else round2 ((value - mean) / std_dev)

/-- `StatEngine.get_mass_band`: the lower bound `int(mass_kg // 5) * 5` of
the 5 kg band.  The source renders the band as the string
`f"{lower}-{lower + 4.9}kg"`; bands are only ever compared for equality, so
the model keeps the integer lower bound as the band's identity. -/
def get_mass_band (mass_kg : ℚ) : ℤ := ⌊mass_kg / 5⌋ * 5

/-- The dictionary assembled by `StatEngine.calculate_benchmarks`. -/
structure BenchmarkNums where
  mean : Option ℚ
  std_dev : Option ℝ
  mode : Option ℚ
  ci_lower : Option ℝ
  ci_upper : Option ℝ
  count : ℕ

/-- `StatEngine.calculate_benchmarks`: `None` on the empty list, otherwise
the bundle of mean, population standard deviation (the default mode),
mode, confidence-interval bounds (each `None` when the CI itself is
`None`) and `count = len(values)`. -/
noncomputable def calculate_benchmarks (values : List ℚ) : Option BenchmarkNums :=
  if values = [] then none
  else some
    { mean := calculate_mean values
      std_dev := calculate_std_dev values true
      mode := calculate_mode values
      ci_lower := (calculate_confidence_interval_95 values).map (·.1)
      ci_upper := (calculate_confidence_interval_95 values).map (·.2)
      count := values.length }

end StatEngine

namespace TrainingLoad

open BSAMS

/-- The `srpe` entry of a session dictionary: the key may be absent
(`session.get("srpe", 0)` then yields the default `0`), present with value
`None`, or present with an integer value. -/
inductive SrpeField where
  | missing : SrpeField
  | null : SrpeField
  | val : ℤ → SrpeField
deriving DecidableEq, Repr

/-- A training-session dictionary as consumed by
`TrainingLoadEngine.calculate_daily_loads`.  Dates are modelled as day
numbers in `ℤ` (`date` arithmetic with `timedelta(days=1)` becomes `+ 1`);
`rpe` / `duration_minutes` are read with `.get(_, 0)`, hence `Option` with
default `0`. -/
structure Session where
  session_date : ℤ
  srpe : SrpeField
  rpe : Option ℤ
  duration_minutes : Option ℤ
deriving DecidableEq, Repr

/-- The sRPE contribution of one session: `session.get("srpe", 0)` gives
`0` when the key is absent; only a present-but-`None` value falls back to
`rpe * duration`. -/
def sessionSrpe (s : Session) : ℤ :=
  match s.srpe with
  | .missing => 0
  | .null => s.rpe.getD 0 * s.duration_minutes.getD 0
  | .val n => n

/-- The `DailyLoad` dataclass. -/
structure DailyLoad where
  date : ℤ
  total_srpe : ℤ
  session_count : ℕ
deriving DecidableEq, Repr

/-- The calendar days `start_date, start_date + 1, ..., end_date` walked by
the zero-fill loop. -/
def windowDates (start_date end_date : ℤ) : List ℤ :=
  (List.range (end_date + 1 - start_date).toNat).map (fun (i : ℕ) => start_date + (i : ℤ))

/-- `TrainingLoadEngine.calculate_daily_loads`.  The source builds a dict
keyed by date (one entry per distinct session date, accumulating
`total_srpe` and `session_count`), zero-fills the days of
`[start_date, end_date]` that have no session, and returns the values
sorted ascending by date.  The dict is modelled extensionally: one entry
per distinct date in (session dates ++ window days), each carrying the sum
and count over the sessions of that date. -/
def calculate_daily_loads (sessions : List Session) (start_date end_date : ℤ) :
    List DailyLoad :=
  let dates := ((sessions.map (·.session_date)) ++ windowDates start_date end_date).dedup
  (dates.insertionSort (· ≤ ·)).map (fun d =>
    { date := d
      total_srpe := ((sessions.filter (fun s => s.session_date = d)).map sessionSrpe).sum
      session_count := (sessions.filter (fun s => s.session_date = d)).length })

/-- The `total_srpe` values of the entries falling in the trailing window
`[target_date - (days - 1), target_date]`. -/
def trailingLoads (daily_loads : List DailyLoad) (target_date : ℤ) (days : ℤ) :
    List ℤ :=
  (daily_loads.filter (fun d => target_date - (days - 1) ≤ d.date ∧ d.date ≤ target_date)).map
    (·.total_srpe)

/-- Mean of the loads in the trailing `days`-day window
(`sum(loads) / len(loads)`). -/
def trailingMean (daily_loads : List DailyLoad) (target_date : ℤ) (days : ℤ) : ℚ :=
  let w := trailingLoads daily_loads target_date days
  (w.sum : ℚ) / w.length

/-- Population variance of the loads in the trailing `days`-day window
(`sum((x - mean)**2) / len`), whose square root `variance ** 0.5` the
source uses as the standard deviation. -/
def trailingVariance (daily_loads : List DailyLoad) (target_date : ℤ) (days : ℤ) : ℚ :=
  let w := trailingLoads daily_loads target_date days
  let m := trailingMean daily_loads target_date days
  ((w.map (fun x => ((x : ℚ) - m) ^ 2)).sum : ℚ) / w.length

/-- `TrainingLoadEngine.calculate_monotony`: mean over population standard
deviation of the loads in the trailing 7-day window; `None` when fewer
than 7 entries match, when the mean is 0, or when the SD is 0. -/
noncomputable def calculate_monotony (daily_loads : List DailyLoad) (target_date : ℤ) :
    Option ℝ :=
  let week := trailingLoads daily_loads target_date 7
  if week.length < 7 then none
  else
    let m : ℚ := trailingMean daily_loads target_date 7
    if m = 0 then none
    else
      let sd : ℝ := Real.sqrt ((trailingVariance daily_loads target_date 7 : ℚ) : ℝ)
      if sd = 0 then none else some (round2 ((m : ℝ) / sd))

/-- `TrainingLoadEngine.calculate_acwr`: acute (7-day) mean over chronic
(28-day) mean, rounded to 2 decimal places; `None` when fewer than 7
acute or 28 chronic entries match, or when the chronic mean is 0. -/
def calculate_acwr (daily_loads : List DailyLoad) (target_date : ℤ) : Option ℚ :=
  let acute := trailingLoads daily_loads target_date 7
  let chronic := trailingLoads daily_loads target_date 28
  if acute.length < 7 ∨ chronic.length < 28 then none
  else
    let acute_mean : ℚ := trailingMean daily_loads target_date 7
    let chronic_mean : ℚ := trailingMean daily_loads target_date 28
    if chronic_mean = 0 then none
    else some (round2 (acute_mean / chronic_mean))

end TrainingLoad

namespace CSVIngestion

open BSAMS

/-- A calendar date as produced by `datetime.strptime`. -/
structure DateYMD where
  year : ℕ
  month : ℕ
  day : ℕ
deriving DecidableEq, Repr

/-- Gregorian leap-year rule used by `datetime` for day-of-month
validation. -/
def isLeapYear (y : ℕ) : Bool :=
  (y % 4 = 0 && y % 100 ≠ 0) || y % 400 = 0

/-- Number of days in a month, as validated by `datetime`. -/
def daysInMonth (y m : ℕ) : ℕ :=
  if m = 2 then (if isLeapYear y then 29 else 28)
  else if m = 4 ∨ m = 6 ∨ m = 9 ∨ m = 11 then 30
  else 31

/-- Whitespace as stripped by Python's `str.strip()` (the ASCII subset the
data deals in). -/
def isSpaceChar (c : Char) : Bool :=
  c = ' ' ∨ c = '\t' ∨ c = '\n' ∨ c = '\r'

/-- Python `str.strip()`. -/
def trimStr (s : String) : String :=
  String.mk (((s.data.dropWhile isSpaceChar).reverse.dropWhile isSpaceChar).reverse)

/-- Split a character list on a separator; `"1/2/3"` gives the three runs
`1`, `2`, `3`, and separators at the ends give empty runs. -/
def splitChars (sep : Char) : List Char → List (List Char)
  | [] => [[]]
  | c :: rest =>
    let r := splitChars sep rest
    if c = sep then [] :: r
    else
      match r with
      | [] => [[c]]
      | h :: t => (c :: h) :: t

/-- The numeric value of a non-empty run of ASCII digits. -/
def charsToNat? (cs : List Char) : Option ℕ :=
  if cs ≠ [] ∧ cs.all Char.isDigit then
    some (cs.foldl (fun a c => 10 * a + (c.toNat - 48)) 0)
  else none

/-- Python `str.lower()` on ASCII. -/
def toLowerChar (c : Char) : Char :=
  if 'A' ≤ c ∧ c ≤ 'Z' then Char.ofNat (c.toNat + 32) else c

/-- One `datetime.strptime(s, "%d<sep>%m<sep>%Y")` attempt: the string
must be exactly three runs of digits joined by the separator, with `%d`
and `%m` matching 1-2 digits, `%Y` matching exactly 4 digits, and the values
forming a valid calendar date (`datetime` requires year ≥ 1). -/
def strptimeDMY (sep : Char) (s : String) : Option DateYMD :=
  match splitChars sep s.data with
  | [ds, ms, ys] =>
    match charsToNat? ds, charsToNat? ms, charsToNat? ys with
    | some d, some m, some y =>
      if ds.length ≤ 2 ∧ ms.length ≤ 2 ∧ ys.length = 4 ∧
          1 ≤ y ∧ 1 ≤ m ∧ m ≤ 12 ∧ 1 ≤ d ∧ d ≤ daysInMonth y m
      then some ⟨y, m, d⟩ else none
    | _, _, _ => none
  | _ => none

/-- `CSVIngestionService.parse_date_ddmmyyyy`: strip whitespace, then try
the separators `/`, `-`, `.` in that fixed order (first success wins);
raise `ValueError("Invalid date format: ...")` when none matches. -/
def parse_date_ddmmyyyy (date_str : String) : Except String DateYMD :=
  let t := trimStr date_str
  match strptimeDMY '/' t with
  | some d => .ok d
  | none =>
    match strptimeDMY '-' t with
    | some d => .ok d
    | none =>
      match strptimeDMY '.' t with
      | some d => .ok d
      | none => .error (("Invalid date format: ") ++ t ++ (". Expected DD/MM/YYYY"))

/-- An unsigned decimal literal: `"12"`, `"12."`, `"12.5"`, `".5"`. -/
def parseUnsignedDecimal (cs : List Char) : Option ℚ :=
  match splitChars '.' cs with
  | [a] => (charsToNat? a).map (fun n => (n : ℚ))
  | [a, b] => (charsToNat? (a ++ b)).map (fun n => (n : ℚ) / 10 ^ b.length)
  | _ => none

/-- Model of Python's `float(s)` on the decimal literals the ingestion
pipeline deals in (optional sign, digits, optional fraction).  `float`
additionally accepts exponents, `inf`/`nan` and underscore separators;
those inputs are outside the modelled subset and none of the claims
involve them. -/
def parseFloat (s : String) : Option ℚ :=
  match s.data with
  | [] => none
  | c :: rest =>
    if c = '-' then (parseUnsignedDecimal rest).map (fun q => -q)
    else if c = '+' then parseUnsignedDecimal rest
    else parseUnsignedDecimal (c :: rest)

/-- `CSVIngestionService.parse_numeric`: strip whitespace; empty string or
(case-insensitively) `na`, `n/a`, `-` give `None`; other non-numeric text
raises `ValueError("Invalid numeric value: ...")`; otherwise the parsed
value is returned. -/
def parse_numeric (value : String) : Except String (Option ℚ) :=
  let t := trimStr value
  if t.data = [] ∨ t.data.map toLowerChar = ("na").data ∨
      t.data.map toLowerChar = ("n/a").data ∨ t.data.map toLowerChar = ("-").data
    then .ok none
  else
    match parseFloat t with
    | some q => .ok (some q)
    | none => .error (("Invalid numeric value: ") ++ t)

/-- A value stored in the JSONB `metrics` dictionary. -/
inductive MetricVal where
  | str : String → MetricVal
  | num : ℚ → MetricVal
deriving DecidableEq, Repr

/-- The `metrics` dictionary, with Python-dict insertion-order
semantics. -/
def Metrics := List (String × MetricVal)

instance : DecidableEq Metrics := by unfold Metrics; infer_instance

/-- Dict lookup. -/
def lookupKey (m : Metrics) (k : String) : Option MetricVal :=
  (m.find? (fun p => p.1 = k)).map (·.2)

/-- Dict assignment `m[k] = v`: update in place when the key is present,
append otherwise. -/
def setKey (m : Metrics) (k : String) (v : MetricVal) : Metrics :=
  match m with
  | [] => [(k, v)]
  | (k', v') :: rest => if k' = k then (k, v) :: rest else (k', v') :: setKey rest k v

/-- A CSV row as produced by `csv.DictReader`: header → cell text. -/
def Row := List (String × String)

/-- Cell access `row[c]` / `c in row`. -/
def rowGet (row : Row) (c : String) : Option String :=
  (row.find? (fun p => p.1 = c)).map (·.2)

/-- One entry of `CSVColumnMapping.metric_columns`:
`csv column → {test_type, metric_key}`. -/
structure MetricMapEntry where
  column : String
  test_type : String
  metric_key : String
deriving DecidableEq, Repr

/-- The `CSVColumnMapping` pydantic model of
`src/backend/app/schemas/upload.py`.  NOTE: the schema defines NO
`gender_column` field, although `CSVIngestionService._process_row` reads
`self.mapping.gender_column`; that attribute access raises
`AttributeError` at run time. -/
structure ColumnMapping where
  date_column : String
  mass_column : String
  athlete_column : Option String
  first_name_column : Option String
  surname_column : Option String
  metric_columns : List MetricMapEntry

/-- The default `CSVColumnMapping()`. -/
def defaultMapping : ColumnMapping where
  date_column := "Test Date"
  mass_column := "Body Mass (kg)"
  athlete_column := some ("Athlete")
  first_name_column := some ("First Name")
  surname_column := some ("Surname")
  metric_columns :=
    [⟨"CMJ Height (cm)", "CMJ", "height_cm"⟩,
     ⟨"SJ Height (cm)", "SJ", "sj_height_cm"⟩,
     ⟨"EUR (cm)", "CMJ", "eur_cm"⟩,
     ⟨"RSI", "CMJ", "rsi"⟩,
     ⟨"RSI Flight (ms)", "CMJ", "flight_time_ms"⟩,
     ⟨"RSI Contact (ms)", "CMJ", "contraction_time_ms"⟩,
     ⟨"CMJ RSI", "CMJ", "rsi"⟩,
     ⟨"CMJ Flight Time (ms)", "CMJ", "flight_time_ms"⟩,
     ⟨"CMJ Contraction Time (ms)", "CMJ", "contraction_time_ms"⟩]

/-- The body of the `for csv_column, mapping_info in ...metric_columns`
loop of `CSVIngestionService.extract_metrics`, acting on the accumulated
`metrics` dict: parse the cell (a `ValueError` is swallowed), drop values
outside `[0, 500]`, set `test_type` only when not already present, then
store the metric value. -/
def extractStep (row : Row) (metrics : Metrics) (e : MetricMapEntry) : Metrics :=
  match rowGet row e.column with
  | none => metrics
  | some value =>
    match parse_numeric value with
    | .error _ => metrics
    | .ok none => metrics
    | .ok (some v) =>
      if v < 0 ∨ v > 500 then metrics
      else
        let m1 :=
          if (lookupKey metrics ("test_type")).isNone
          then setKey metrics ("test_type") (.str e.test_type)
          else metrics
        setKey m1 e.metric_key (.num v)

/-- The `extract_metrics` loop over a list of mapping entries. -/
def extractFrom (entries : List MetricMapEntry) (row : Row) (acc : Metrics) : Metrics :=
  entries.foldl (extractStep row) acc

/-- `CSVIngestionService.extract_metrics`. -/
def extract_metrics (m : ColumnMapping) (row : Row) : Metrics :=
  extractFrom m.metric_columns row []

/-- Whether a mapping entry yields a metric for the row: its column is
present, parses to a numeric value, and that value lies in `[0, 500]`. -/
def entrySucceeds (row : Row) (e : MetricMapEntry) : Bool :=
  match rowGet row e.column with
  | none => false
  | some sv =>
    match parse_numeric sv with
    | .ok (some v) => decide (0 ≤ v ∧ v ≤ 500)
    | _ => false

/-- The first mapping entry (in `metric_columns` order) that yields a
metric for the row — the one whose `test_type` tags the record. -/
def firstHit (entries : List MetricMapEntry) (row : Row) : Option MetricMapEntry :=
  entries.find? (entrySucceeds row)

/-- A Python exception escaping `_process_row`: `ValueError` (caught by
`process_csv` and recorded as a row error) or `AttributeError`
(not caught — it aborts the whole call). -/
inductive PyErr where
  | valueError : String → PyErr
  | attributeError : String → PyErr
deriving DecidableEq, Repr

/-- The event dictionary `_process_row` would return. -/
structure EventRec where
  event_date : DateYMD
  metrics : Metrics
deriving DecidableEq

/-- `CSVIngestionService._process_row`: date column required (missing or
blank raises `ValueError`), date parsed via `parse_date_ddmmyyyy`
(failure re-raised as `ValueError`), body mass parsed leniently with
out-of-range (`< 0` or `> 300`) values discarded, metrics extracted, and a
row with no metrics skipped (`None`, not an error).  A row that does
produce metrics reaches the line `gender_col = self.mapping.gender_column`;
`CSVColumnMapping` defines no such field, so the access raises
`AttributeError` before the event is returned. -/
def _process_row (m : ColumnMapping) (row : Row) : Except PyErr (Option EventRec) :=
  match rowGet row m.date_column with
  | none => .error (.valueError ("Missing required date column: " ++ m.date_column))
  | some dv =>
    if (trimStr dv).data = [] then
      .error (.valueError ("Missing required date column: " ++ m.date_column))
    else
      match parse_date_ddmmyyyy dv with
      | .error e => .error (.valueError e)
      | .ok d =>
        let body_mass : Option ℚ :=
          match rowGet row m.mass_column with
          | none => none
          | some mv =>
            if (trimStr mv).data = [] then none
            else
              match parse_numeric mv with
              | .error _ => none
              | .ok none => none
              | .ok (some q) => if q < 0 ∨ q > 300 then none else some q
        let mets := extract_metrics m row
        if mets = [] then .ok none
        else
          let _ev : EventRec :=
            { event_date := d
              metrics :=
                match body_mass with
                | none => mets
                | some q => setKey mets ("body_mass_kg") (.num q) }
          .error (.attributeError
            ("CSVColumnMapping object has no attribute gender_column"))

/-- The `RowError` schema: 1-indexed row number (header is row 1) and a
reason string. -/
structure RowErrorRec where
  row : ℕ
  reason : String
deriving DecidableEq, Repr

/-- The row loop of `CSVIngestionService.process_csv`, starting at row
number `i`: a `ValueError` from a row is recorded as `{row, reason}` and
processing continues; an `AttributeError` propagates and aborts the whole
call. -/
def processRowsFrom (m : ColumnMapping) (i : ℕ) :
    List Row → Except PyErr (List EventRec × List RowErrorRec)
  | [] => .ok ([], [])
  | r :: rest =>
    match _process_row m r with
    | .ok oe =>
      match processRowsFrom m (i + 1) rest with
      | .error e => .error e
      | .ok (es, errs) =>
        .ok ((match oe with | some ev => ev :: es | none => es), errs)
    | .error (.valueError msg) =>
      match processRowsFrom m (i + 1) rest with
      | .error e => .error e
      | .ok (es, errs) => .ok (es, ⟨i, msg⟩ :: errs)
    | .error (.attributeError msg) => .error (.attributeError msg)

/-- `CSVIngestionService.process_csv` beyond the `csv.DictReader` parse:
the data rows are enumerated starting at 2 (the header is row 1). -/
def process_csv (m : ColumnMapping) (rows : List Row) :
    Except PyErr (List EventRec × List RowErrorRec) :=
  processRowsFrom m 2 rows

end CSVIngestion

namespace Analysis

open BSAMS CSVIngestion StatEngine

/-- An athlete row `{id, gender}` as returned by the athletes query. -/
structure AthleteRow where
  id : String
  gender : String
deriving DecidableEq, Repr

/-- A performance-event row `{athlete_id, metrics}`. -/
structure EventRow where
  athlete_id : String
  metrics : Metrics
deriving DecidableEq

/-- The `ReferenceGroup` enum of the analysis router. -/
inductive RefGroup where
  | cohort : RefGroup
  | gender : RefGroup
  | massBand : RefGroup
deriving DecidableEq, Repr

/-- An `HTTPException` with its status code. -/
structure HTTPErrorRec where
  status : ℕ
  detail : String
deriving DecidableEq, Repr

/-- The `BenchmarkResponse` model (reference group kept as the enum; the
wire format stringifies it). -/
structure BenchmarkResp where
  mean : Option ℚ
  std_dev : Option ℝ
  mode : Option ℚ
  ci_lower : Option ℝ
  ci_upper : Option ℝ
  count : ℕ
  reference_group : RefGroup
  metric : String

/-- The `ZScoreResponse` model. -/
structure ZScoreResp where
  value : ℚ
  z_score : ℝ
  mean : ℚ
  std_dev : ℝ
  reference_group : RefGroup
  metric : String

/-- The "zero count, all null" `BenchmarkResponse` the benchmarks endpoint
returns on an empty population or sample set. -/
def zeroBench (group : RefGroup) (metric : String) : BenchmarkResp :=
  { mean := none, std_dev := none, mode := none, ci_lower := none,
    ci_upper := none, count := 0, reference_group := group, metric := metric }

/-- `metrics.get("body_mass_kg")` as a number.  The source would raise an
uncaught `TypeError` inside `get_mass_band` on a non-numeric value; stored
body masses are numeric, and the claims never exercise that path. -/
def bodyMassOf (m : Metrics) : Option ℚ :=
  match lookupKey m ("body_mass_kg") with
  | some (.num q) => some q
  | _ => none

/-- `float(x)` applied to a metrics value, with `TypeError` / `ValueError`
treated as failure (the callers catch both and skip the sample). -/
def coerceNum : MetricVal → Option ℚ
  | .num q => some q
  | .str s => parseFloat s

/-- The metric sample one event contributes in `get_benchmarks`: under
`mass_band` grouping the event must carry a `body_mass_kg` whose band
matches the target band; then the requested metric key must be present and
numerically coercible. -/
def benchSample (group : RefGroup) (massBandP : Option ℤ) (metric : String)
    (e : EventRow) : Option ℚ :=
  if group = .massBand then
    match bodyMassOf e.metrics with
    | none => none
    | some bm =>
      if some (get_mass_band bm) ≠ massBandP then none
      else
        match lookupKey e.metrics metric with
        | none => none
        | some v => coerceNum v
  else
    match lookupKey e.metrics metric with
    | none => none
    | some v => coerceNum v

/-- The athlete ids of the reference group in `get_benchmarks`: the whole
cohort, or under `gender` grouping only the athletes of the requested
gender. -/
def benchIds (athletes : List AthleteRow) (group : RefGroup)
    (genderP : Option String) : List String :=
  (athletes.filter (fun a => group ≠ .gender ∨ some a.gender = genderP)).map (·.id)

/-- The metric samples gathered by `get_benchmarks` from the events of the
reference athletes. -/
def benchValues (athletes : List AthleteRow) (events : List EventRow)
    (metric : String) (group : RefGroup) (genderP : Option String)
    (massBandP : Option ℤ) : List ℚ :=
  ((events.filter (fun e => e.athlete_id ∈ benchIds athletes group genderP)).filterMap
    (benchSample group massBandP metric))

/-- The computational core of the `GET /analysis/benchmarks` endpoint
(database access abstracted into the `athletes` / `events` inputs, the
503 no-client branch out of scope): parameter validation, reference-group
resolution, sample gathering, and the zero-result policy — an empty
population, athlete-id set, event set or sample set yields the
"zero count, all null" response as a success. -/
noncomputable def get_benchmarks_core (athletes : List AthleteRow)
    (events : List EventRow) (metric : String) (group : RefGroup)
    (genderP : Option String) (massBandP : Option ℤ) :
    Except HTTPErrorRec BenchmarkResp :=
  if group = .gender ∧ genderP = none then
    .error ⟨400, "Gender parameter required when reference_group is gender"⟩
  else if group = .massBand ∧ massBandP = none then
    .error ⟨400, "Mass band parameter required when reference_group is mass_band"⟩
  else if athletes = [] then .ok (zeroBench group metric)
  else if benchIds athletes group genderP = [] then .ok (zeroBench group metric)
  else if events.filter (fun e => e.athlete_id ∈ benchIds athletes group genderP) = []
    then .ok (zeroBench group metric)
  else
    let values := benchValues athletes events metric group genderP massBandP
    if values = [] then .ok (zeroBench group metric)
    else
      match calculate_benchmarks values with
      | none => .ok (zeroBench group metric)
      | some b =>
        .ok { mean := b.mean, std_dev := b.std_dev, mode := b.mode,
              ci_lower := b.ci_lower, ci_upper := b.ci_upper, count := b.count,
              reference_group := group, metric := metric }

/-- The reference athletes of the Z-score endpoint: the coach's athletes,
filtered to the athlete's own gender under `gender` grouping. -/
def zscoreRefs (refAthletes : List AthleteRow) (group : RefGroup)
    (athleteGender : String) : List AthleteRow :=
  refAthletes.filter (fun a => group ≠ .gender ∨ a.gender = athleteGender)

/-- The mass-band filter of the Z-score endpoint: under `mass_band`
grouping, the band of the athlete's own event mass. -/
def zscoreBand (group : RefGroup) (em : Metrics) : Option ℤ :=
  if group = .massBand then (bodyMassOf em).map get_mass_band else none

/-- The reference samples gathered by the Z-score endpoint. -/
def zscoreValues (refAthletes : List AthleteRow) (refEvents : List EventRow)
    (group : RefGroup) (athleteGender : String) (em : Metrics)
    (metric : String) : List ℚ :=
  ((refEvents.filter (fun e =>
      e.athlete_id ∈ (zscoreRefs refAthletes group athleteGender).map (·.id))).filterMap
    (benchSample group (zscoreBand group em) metric))

/-- The computational core of `GET /analysis/athlete/{id}/zscore`
(database access abstracted): `athleteFound` is whether the athlete query
returned a row, `eventMetrics` the metrics of the selected (specific or
latest) event (`none` when the athlete has no events), `refAthletes` /
`refEvents` the reference population and its events.  Every emptiness is
a 404/400-class failure, unlike the benchmarks endpoint. -/
noncomputable def get_athlete_zscore_core (athleteFound : Bool)
    (athleteGender : String) (eventMetrics : Option Metrics)
    (refAthletes : List AthleteRow) (refEvents : List EventRow)
    (metric : String) (group : RefGroup) : Except HTTPErrorRec ZScoreResp :=
  if ¬athleteFound then .error ⟨404, "Athlete not found"⟩
  else
    match eventMetrics with
    | none => .error ⟨404, "No events found for athlete"⟩
    | some em =>
      match lookupKey em metric with
      | none => .error ⟨404, "Metric not found in event"⟩
      | some mv =>
        match coerceNum mv with
        | none => .error ⟨500, "Internal Server Error"⟩
        | some athleteValue =>
          if group = .massBand ∧ bodyMassOf em = none then
            .error ⟨400, "Body mass required for mass band reference group"⟩
          else
            if zscoreRefs refAthletes group athleteGender = [] then
              .error ⟨400, "No athletes in reference group"⟩
            else
              let values := zscoreValues refAthletes refEvents group
                athleteGender em metric
              if values = [] then
                .error ⟨400, "No data in reference group for this metric"⟩
              else
                match calculate_mean values, calculate_std_dev values true with
                | some mn, some sd =>
                  .ok { value := round2 athleteValue,
                        z_score := calculate_z_score (athleteValue : ℝ) ((mn : ℚ) : ℝ) sd,
                        mean := mn, std_dev := sd,
                        reference_group := group, metric := metric }
                | _, _ => .error ⟨400, "Insufficient data to calculate Z-score"⟩

end Analysis

namespace Examples

/-- 28 consecutive days of steady load 100 (one session each). -/
def dlSteady28 : List TrainingLoad.DailyLoad :=
  (List.range 28).map (fun i => ⟨(i : ℤ), 100, 1⟩)

/-- 27 consecutive days of steady load 100 ending at day 27: the acute
window of day 27 holds exactly 7 entries, the chronic window only 27. -/
def dlSteady27 : List TrainingLoad.DailyLoad :=
  (List.range 27).map (fun i => ⟨(i : ℤ) + 1, 100, 1⟩)

/-- 7 identical non-zero daily loads (days 0-6). -/
def dlUniform7 : List TrainingLoad.DailyLoad :=
  (List.range 7).map (fun i => ⟨(i : ℤ), 100, 1⟩)

/-- 7 daily loads with mean 10 and population variance 4 (days 0-6). -/
def dlVar7 : List TrainingLoad.DailyLoad :=
  [⟨0, 14, 1⟩, ⟨1, 7, 1⟩, ⟨2, 9, 1⟩, ⟨3, 11, 1⟩, ⟨4, 9, 1⟩, ⟨5, 10, 1⟩, ⟨6, 10, 1⟩]

/-- Two sessions: one on day 0 whose `srpe` KEY IS ABSENT (so
`session.get("srpe", 0)` yields 0, not `rpe * duration`), and one on day
100, far outside the analysis window `[0, 0]`. -/
def sessOutside : List TrainingLoad.Session :=
  [{ session_date := 0, srpe := .missing, rpe := some 5, duration_minutes := some 10 },
   { session_date := 100, srpe := .val 7, rpe := some 1, duration_minutes := some 1 }]

/-- Two sessions on day 0, inside the window `[0, 2]`: one with a stored
`srpe` of 30, one with `srpe` present but `None` (falls back to
`rpe * duration = 50`). -/
def sessInside : List TrainingLoad.Session :=
  [{ session_date := 0, srpe := .val 30, rpe := some 3, duration_minutes := some 10 },
   { session_date := 0, srpe := .null, rpe := some 5, duration_minutes := some 10 }]

/-- A CSV data row with a valid date and one in-range metric: the shape
the repository's own tests feed to `process_csv` expecting an event. -/
def rowValid : CSVIngestion.Row :=
  [(("Test Date"), ("15/01/2024")), (("CMJ Height (cm)"), ("45"))]

/-- A CSV data row with a valid date but only a body mass — no metric
columns, so the row is silently skipped. -/
def rowMassOnly : CSVIngestion.Row :=
  [(("Test Date"), ("15/01/2024")), (("Body Mass (kg)"), ("75"))]

/-- A CSV data row with a malformed date. -/
def rowBadDate : CSVIngestion.Row :=
  [(("Test Date"), ("invalid-date")), (("CMJ Height (cm)"), ("42"))]

end Examples

namespace BSAMS

theorem halfEven_eq_floor {α : Type*} [LinearOrderedField α] [FloorRing α]
    (x : α) (k : ℤ) (h1 : (k : α) ≤ x) (h2 : x < (k : α) + 1 / 2) :
    halfEven x = k := by
  have hfl : ⌊x⌋ = k := by
    apply Int.floor_eq_iff.mpr
    constructor
    · exact h1
    · calc x < (k : α) + 1 / 2 := h2
        _ < (k : α) + 1 := by norm_num
  have hfr : Int.fract x < 1 / 2 := by
    have : Int.fract x = x - (k : α) := by simp [Int.fract, hfl]
    rw [this]; linarith
  unfold halfEven
  rw [if_pos hfr, hfl]

theorem halfEven_eq_ceil {α : Type*} [LinearOrderedField α] [FloorRing α]
    (x : α) (k : ℤ) (h1 : (k : α) + 1 / 2 < x) (h2 : x < (k : α) + 1) :
    halfEven x = k + 1 := by
  have hfl : ⌊x⌋ = k := by
    apply Int.floor_eq_iff.mpr
    refine ⟨by linarith, h2⟩
  have hfr : 1 / 2 < Int.fract x := by
    have : Int.fract x = x - (k : α) := by simp [Int.fract, hfl]
    rw [this]; linarith
  unfold halfEven
  rw [if_neg (by linarith), if_pos hfr, hfl]

theorem halfEven_intCast {α : Type*} [LinearOrderedField α] [FloorRing α]
    (k : ℤ) : halfEven (k : α) = k := by
  apply halfEven_eq_floor
  · exact le_refl _
  · norm_num

theorem halfEven_ratCast (q : ℚ) : halfEven ((q : ℝ)) = halfEven q := by
  have hf : Int.fract ((q : ℝ)) = ((Int.fract q : ℚ) : ℝ) := by
    simp only [Int.fract, Rat.floor_cast]
    push_cast
    ring
  unfold halfEven
  rw [Rat.floor_cast, hf]
  have hlt : ((Int.fract q : ℚ) : ℝ) < 1 / 2 ↔ Int.fract q < 1 / 2 := by
    rw [show ((1 : ℝ) / 2) = (((1 / 2 : ℚ)) : ℝ) by norm_num, Rat.cast_lt]
  have hgt : (1 : ℝ) / 2 < ((Int.fract q : ℚ) : ℝ) ↔ 1 / 2 < Int.fract q := by
    rw [show ((1 : ℝ) / 2) = (((1 / 2 : ℚ)) : ℝ) by norm_num, Rat.cast_lt]
  by_cases h1 : Int.fract q < 1 / 2
  · rw [if_pos h1, if_pos (hlt.mpr h1)]
  · by_cases h2 : 1 / 2 < Int.fract q
    · rw [if_neg h1, if_neg (fun hc => h1 (hlt.mp hc)), if_pos h2,
        if_pos (hgt.mpr h2)]
    · rw [if_neg h1, if_neg (fun hc => h1 (hlt.mp hc)), if_neg h2,
        if_neg (fun hc => h2 (hgt.mp hc))]

theorem round2_ratCast (q : ℚ) : round2 ((q : ℝ)) = ((round2 q : ℚ) : ℝ) := by
  unfold round2
  rw [show ((q : ℝ) * 100) = (((q * 100 : ℚ)) : ℝ) by push_cast; ring,
    halfEven_ratCast]
  push_cast
  ring

theorem round2_intCast {α : Type*} [LinearOrderedField α] [FloorRing α] (k : ℤ) :
    round2 ((k : α)) = (k : α) := by
  unfold round2
  have h : ((k : α)) * 100 = ((k * 100 : ℤ) : α) := by push_cast; ring
  rw [h, halfEven_intCast]
  push_cast
  ring

theorem round1_intCast {α : Type*} [LinearOrderedField α] [FloorRing α] (k : ℤ) :
    round1 ((k : α)) = (k : α) := by
  unfold round1
  have h : ((k : α)) * 10 = ((k * 10 : ℤ) : α) := by push_cast; ring
  rw [h, halfEven_intCast]
  push_cast
  ring

theorem round2_eq_low {α : Type*} [LinearOrderedField α] [FloorRing α]
    (x : α) (k : ℤ) (h1 : (k : α) ≤ x * 100) (h2 : x * 100 < (k : α) + 1 / 2) :
    round2 x = (k : α) / 100 := by
  unfold round2
  rw [halfEven_eq_floor (x * 100) k h1 h2]

theorem round2_eq_high {α : Type*} [LinearOrderedField α] [FloorRing α]
    (x : α) (k : ℤ) (h1 : (k : α) + 1 / 2 < x * 100) (h2 : x * 100 < (k : α) + 1) :
    round2 x = ((k : α) + 1) / 100 := by
  unfold round2
  rw [halfEven_eq_ceil (x * 100) k h1 h2]
  push_cast
  ring

theorem round1_eq_low {α : Type*} [LinearOrderedField α] [FloorRing α]
    (x : α) (k : ℤ) (h1 : (k : α) ≤ x * 10) (h2 : x * 10 < (k : α) + 1 / 2) :
    round1 x = (k : α) / 10 := by
  unfold round1
  rw [halfEven_eq_floor (x * 10) k h1 h2]

theorem round1_eq_high {α : Type*} [LinearOrderedField α] [FloorRing α]
    (x : α) (k : ℤ) (h1 : (k : α) + 1 / 2 < x * 10) (h2 : x * 10 < (k : α) + 1) :
    round1 x = ((k : α) + 1) / 10 := by
  unfold round1
  rw [halfEven_eq_ceil (x * 10) k h1 h2]
  push_cast
  ring

theorem round2_div_ten {α : Type*} [LinearOrderedField α] [FloorRing α] (k : ℤ) :
    round2 ((k : α) / 10) = (k : α) / 10 := by
  unfold round2
  have h : ((k : α) / 10) * 100 = ((k * 10 : ℤ) : α) := by push_cast; ring
  rw [h, halfEven_intCast]
  push_cast
  ring

/-- `round2` is the identity on values already rounded to 1 decimal place. -/
theorem round2_round1 (x : ℚ) : round2 (round1 x) = round1 x := by
  unfold round1
  exact round2_div_ten _

end BSAMS

namespace ListFacts

theorem foldr_max_le (l : List ℕ) : ∀ x ∈ l, x ≤ l.foldr max 0 := by
  induction l with
  | nil => simp
  | cons a t ih =>
    intro x hx
    rcases List.mem_cons.mp hx with rfl | hx
    · exact le_max_left _ _
    · exact le_trans (ih x hx) (le_max_right _ _)

theorem foldr_max_mem (l : List ℕ) (h : l ≠ []) : l.foldr max 0 ∈ l := by
  induction l with
  | nil => exact absurd rfl h
  | cons a t ih =>
    by_cases ht : t = []
    · subst ht; simp
    · have hmem := ih ht
      simp only [List.foldr_cons]
      rcases max_choice a (t.foldr max 0) with hm | hm
      · rw [hm]; exact List.mem_cons_self _ _
      · rw [hm]; exact List.mem_cons_of_mem _ hmem

theorem foldl_min_le_init (xs : List ℚ) (a : ℚ) : xs.foldl min a ≤ a := by
  induction xs generalizing a with
  | nil => simp
  | cons x t ih =>
    simp only [List.foldl_cons]
    exact le_trans (ih (min a x)) (min_le_left _ _)

theorem foldl_min_le_mem (xs : List ℚ) (a : ℚ) : ∀ y ∈ xs, xs.foldl min a ≤ y := by
  induction xs generalizing a with
  | nil => simp
  | cons x t ih =>
    intro y hy
    rcases List.mem_cons.mp hy with rfl | hy
    · simp only [List.foldl_cons]
      exact le_trans (foldl_min_le_init t (min a y)) (min_le_right _ _)
    · exact ih (min a x) y hy

theorem foldl_min_mem (xs : List ℚ) (a : ℚ) :
    xs.foldl min a = a ∨ xs.foldl min a ∈ xs := by
  induction xs generalizing a with
  | nil => simp
  | cons x t ih =>
    simp only [List.foldl_cons]
    rcases ih (min a x) with hm | hm
    · rcases min_choice a x with hc | hc
      · rw [hm, hc]; left; rfl
      · rw [hm, hc]; right; exact List.mem_cons_self _ _
    · right; exact List.mem_cons_of_mem _ hm

end ListFacts

namespace StatEngine

theorem listMin_eq_some (l : List ℚ) (h : l ≠ []) : ∃ x, listMin l = some x := by
  cases l with
  | nil => exact absurd rfl h
  | cons a t => exact ⟨t.foldl min a, rfl⟩

theorem listMin_mem (l : List ℚ) (x : ℚ) (h : listMin l = some x) : x ∈ l := by
  cases l with
  | nil => cases h
  | cons a t =>
    simp only [listMin, Option.some.injEq] at h
    subst h
    rcases ListFacts.foldl_min_mem t a with hm | hm
    · rw [hm]; exact List.mem_cons_self _ _
    · exact List.mem_cons_of_mem _ hm

theorem listMin_le (l : List ℚ) (x : ℚ) (h : listMin l = some x) :
    ∀ y ∈ l, x ≤ y := by
  cases l with
  | nil => cases h
  | cons a t =>
    simp only [listMin, Option.some.injEq] at h
    subst h
    intro y hy
    rcases List.mem_cons.mp hy with rfl | hy
    · exact ListFacts.foldl_min_le_init t y
    · exact ListFacts.foldl_min_le_mem t a y hy

end StatEngine

namespace TrainingLoad

theorem trailingVariance_nonneg (dl : List DailyLoad) (t days : ℤ) :
    0 ≤ trailingVariance dl t days := by
  unfold trailingVariance
  apply div_nonneg
  · apply List.sum_nonneg
    intro x hx
    rw [List.mem_map] at hx
    obtain ⟨y, -, rfl⟩ := hx
    positivity
  · positivity

end TrainingLoad

/-- C10: for every single value `x` and both modes, the standard-deviation
function on `[x]` returns exactly `0.0` — the `n == 1` case is decided
before any divisor is formed — and the function is `Some` on every
non-empty input, sample mode included. -/
theorem claim_C10 :
    (∀ (x : ℚ) (population : Bool),
      StatEngine.calculate_std_dev [x] population = some 0) ∧
    (∀ (values : List ℚ) (population : Bool), values ≠ [] →
      (StatEngine.calculate_std_dev values population).isSome) := by
  constructor
  · intro x population
    simp [StatEngine.calculate_std_dev]
  · intro values population h
    simp only [StatEngine.calculate_std_dev, if_neg h]
    split <;> simp

/-- Witness for C10 at `x = 7` and at the two-element list `[3, 4]`. -/
theorem claim_C10_witness :
    StatEngine.calculate_std_dev [(7 : ℚ)] false = some 0 ∧
    ([(3 : ℚ), 4] ≠ [] ∧ (StatEngine.calculate_std_dev [(3 : ℚ), 4] true).isSome) :=
  ⟨claim_C10.1 7 false, by simp, claim_C10.2 [3, 4] true (by simp)⟩

/-- C4: `calculate_acwr` is `None` exactly when the trailing 7-day window
matches fewer than 7 entries, the trailing 28-day window matches fewer
than 28 entries, or the chronic mean is 0; otherwise it returns
`round(mean(acute) / mean(chronic), 2)`. -/
theorem claim_C4 (dl : List TrainingLoad.DailyLoad) (t : ℤ) :
    (TrainingLoad.calculate_acwr dl t = none ↔
      ((TrainingLoad.trailingLoads dl t 7).length < 7 ∨
       (TrainingLoad.trailingLoads dl t 28).length < 28 ∨
       TrainingLoad.trailingMean dl t 28 = 0)) ∧
    (7 ≤ (TrainingLoad.trailingLoads dl t 7).length →
     28 ≤ (TrainingLoad.trailingLoads dl t 28).length →
     TrainingLoad.trailingMean dl t 28 ≠ 0 →
     TrainingLoad.calculate_acwr dl t =
       some (BSAMS.round2
         (TrainingLoad.trailingMean dl t 7 / TrainingLoad.trailingMean dl t 28))) := by
  constructor
  · constructor
    · intro h
      simp only [TrainingLoad.calculate_acwr] at h
      split_ifs at h with h1 h2
      · tauto
      · tauto
    · intro h
      simp only [TrainingLoad.calculate_acwr]
      split_ifs with h1 h2
      · rfl
      · rfl
      · exfalso
        rcases h with h | h | h
        · exact h1 (Or.inl h)
        · exact h1 (Or.inr h)
        · exact h2 h
  · intro h7 h28 hm
    simp only [TrainingLoad.calculate_acwr]
    rw [if_neg (by push_neg; omega), if_neg hm]

/-- Witness for C4: 28 steady non-zero days give ACWR `1.0`; exactly 7
acute days with only 27 chronic days give `None`. -/
theorem claim_C4_witness :
    TrainingLoad.calculate_acwr Examples.dlSteady28 27 = some 1 ∧
    TrainingLoad.calculate_acwr Examples.dlSteady27 27 = none := by
  have hm7 : TrainingLoad.trailingMean Examples.dlSteady28 27 7 = 100 := by
    have hs : (TrainingLoad.trailingLoads Examples.dlSteady28 27 7).sum = 700 := by decide
    have hl : (TrainingLoad.trailingLoads Examples.dlSteady28 27 7).length = 7 := by decide
    simp only [TrainingLoad.trailingMean, hs, hl]
    norm_num
  have hm28 : TrainingLoad.trailingMean Examples.dlSteady28 27 28 = 100 := by
    have hs : (TrainingLoad.trailingLoads Examples.dlSteady28 27 28).sum = 2800 := by decide
    have hl : (TrainingLoad.trailingLoads Examples.dlSteady28 27 28).length = 28 := by decide
    simp only [TrainingLoad.trailingMean, hs, hl]
    norm_num
  constructor
  · have h := (claim_C4 Examples.dlSteady28 27).2 (by decide) (by decide)
      (by rw [hm28]; norm_num)
    rw [h, hm7, hm28]
    rw [show (100 : ℚ) / 100 = (((1 : ℤ)) : ℚ) by norm_num, BSAMS.round2_intCast]
    norm_num
  · exact (claim_C4 Examples.dlSteady27 27).1.mpr (Or.inr (Or.inl (by decide)))

/-- C5: `calculate_monotony` is `None` exactly when the trailing week
matches fewer than 7 entries, its mean is 0, or its population SD is 0;
otherwise it returns `round(mean / populationStdDev, 2)`. -/
theorem claim_C5 (dl : List TrainingLoad.DailyLoad) (t : ℤ) :
    (TrainingLoad.calculate_monotony dl t = none ↔
      ((TrainingLoad.trailingLoads dl t 7).length < 7 ∨
       TrainingLoad.trailingMean dl t 7 = 0 ∨
       TrainingLoad.trailingVariance dl t 7 = 0)) ∧
    (7 ≤ (TrainingLoad.trailingLoads dl t 7).length →
     TrainingLoad.trailingMean dl t 7 ≠ 0 →
     TrainingLoad.trailingVariance dl t 7 ≠ 0 →
     TrainingLoad.calculate_monotony dl t =
       some (BSAMS.round2 ((TrainingLoad.trailingMean dl t 7 : ℝ) /
         Real.sqrt ((TrainingLoad.trailingVariance dl t 7 : ℚ) : ℝ)))) := by
  have hveq : Real.sqrt ((TrainingLoad.trailingVariance dl t 7 : ℚ) : ℝ) = 0 ↔
      TrainingLoad.trailingVariance dl t 7 = 0 := by
    rw [Real.sqrt_eq_zero']
    constructor
    · intro h
      have h0 := TrainingLoad.trailingVariance_nonneg dl t 7
      have : ((TrainingLoad.trailingVariance dl t 7 : ℚ) : ℝ) ≤ 0 := h
      rw [Rat.cast_nonpos] at this
      linarith
    · intro h
      rw [h]
      norm_num
  constructor
  · constructor
    · intro h
      simp only [TrainingLoad.calculate_monotony] at h
      split_ifs at h with h1 h2 h3
      · tauto
      · tauto
      · exact Or.inr (Or.inr (hveq.mp h3))
    · intro h
      simp only [TrainingLoad.calculate_monotony]
      split_ifs with h1 h2 h3
      · rfl
      · rfl
      · rfl
      · exfalso
        rcases h with h | h | h
        · exact h1 h
        · exact h2 h
        · exact h3 (hveq.mpr h)
  · intro h7 hm hv
    simp only [TrainingLoad.calculate_monotony]
    rw [if_neg (by omega), if_neg hm, if_neg (fun hc => hv (hveq.mp hc))]

/-- Witness for C5: 7 identical non-zero daily loads give `None` (zero
SD); 7 days with mean 10 and SD 2 give monotony `5.0`. -/
theorem claim_C5_witness :
    TrainingLoad.calculate_monotony Examples.dlUniform7 6 = none ∧
    TrainingLoad.calculate_monotony Examples.dlVar7 6 = some 5 := by
  have hwu : TrainingLoad.trailingLoads Examples.dlUniform7 6 7 =
      [100, 100, 100, 100, 100, 100, 100] := by decide
  have hmu : TrainingLoad.trailingMean Examples.dlUniform7 6 7 = 100 := by
    simp only [TrainingLoad.trailingMean, hwu]
    norm_num
  have hw : TrainingLoad.trailingLoads Examples.dlVar7 6 7 =
      [14, 7, 9, 11, 9, 10, 10] := by decide
  have hm : TrainingLoad.trailingMean Examples.dlVar7 6 7 = 10 := by
    simp only [TrainingLoad.trailingMean, hw]
    norm_num
  have hv : TrainingLoad.trailingVariance Examples.dlVar7 6 7 = 4 := by
    simp only [TrainingLoad.trailingVariance, hm, hw]
    norm_num
  constructor
  · refine (claim_C5 Examples.dlUniform7 6).1.mpr (Or.inr (Or.inr ?hv0))
    simp only [TrainingLoad.trailingVariance, hmu, hwu]
    norm_num
  · have h := (claim_C5 Examples.dlVar7 6).2 (by decide) (by rw [hm]; norm_num)
      (by rw [hv]; norm_num)
    rw [h]
    rw [hm, hv]
    have hs : Real.sqrt ((((4 : ℚ)) : ℝ)) = 2 := by
      rw [show (((4 : ℚ)) : ℝ) = (2 : ℝ) ^ 2 by norm_num]
      exact Real.sqrt_sq (by norm_num)
    rw [hs]
    rw [show ((10 : ℚ) : ℝ) / 2 = (((5 : ℤ)) : ℝ) by norm_num]
    rw [BSAMS.round2_intCast]
    norm_num

/-- C6: for every non-empty list, `calculate_mode` returns a value of the
1-decimal-rounded list whose frequency there is maximal and which is the
smallest among the tied maxima; it returns `None` exactly on the empty
list. -/
theorem claim_C6 (values : List ℚ) :
    (StatEngine.calculate_mode values = none ↔ values = []) ∧
    (∀ m, StatEngine.calculate_mode values = some m →
      m ∈ values.map BSAMS.round1 ∧
      (∀ v ∈ values.map BSAMS.round1,
        (values.map BSAMS.round1).count v ≤ (values.map BSAMS.round1).count m) ∧
      (∀ v ∈ values.map BSAMS.round1,
        (values.map BSAMS.round1).count v = (values.map BSAMS.round1).count m →
          m ≤ v)) := by
  by_cases h : values = []
  · subst h
    constructor
    · simp [StatEngine.calculate_mode]
    · intro m hm
      simp [StatEngine.calculate_mode] at hm
  · have hr : values.map BSAMS.round1 ≠ [] := by
      simpa using h
    -- the maximal frequency is attained by some element of the rounded list
    have hmax : ∃ r ∈ values.map BSAMS.round1,
        (values.map BSAMS.round1).count r =
          ((values.map BSAMS.round1).map
            (fun v => (values.map BSAMS.round1).count v)).foldr max 0 := by
      have hne : ((values.map BSAMS.round1).map
          (fun v => (values.map BSAMS.round1).count v)) ≠ [] := by
        simpa using hr
      have hmem := ListFacts.foldr_max_mem _ hne
      rw [List.mem_map] at hmem
      obtain ⟨r, hrmem, hrc⟩ := hmem
      exact ⟨r, hrmem, hrc⟩
    obtain ⟨r, hrmem, hrc⟩ := hmax
    have hmodes_ne :
        (values.map BSAMS.round1).filter
          (fun v => (values.map BSAMS.round1).count v =
            ((values.map BSAMS.round1).map
              (fun v => (values.map BSAMS.round1).count v)).foldr max 0) ≠ [] := by
      intro hc
      have : r ∈ (values.map BSAMS.round1).filter
          (fun v => (values.map BSAMS.round1).count v =
            ((values.map BSAMS.round1).map
              (fun v => (values.map BSAMS.round1).count v)).foldr max 0) := by
        rw [List.mem_filter]
        exact ⟨hrmem, by simpa using hrc⟩
      rw [hc] at this
      cases this
    obtain ⟨x, hx⟩ := StatEngine.listMin_eq_some _ hmodes_ne
    have hmode : StatEngine.calculate_mode values = some (BSAMS.round2 x) := by
      simp only [StatEngine.calculate_mode, if_neg h, hx, Option.map_some']
    have hxmem := StatEngine.listMin_mem _ _ hx
    rw [List.mem_filter] at hxmem
    obtain ⟨hxr, hxc⟩ := hxmem
    have hxcount : (values.map BSAMS.round1).count x =
        ((values.map BSAMS.round1).map
          (fun v => (values.map BSAMS.round1).count v)).foldr max 0 := by
      simpa using hxc
    have hx2 : BSAMS.round2 x = x := by
      rw [List.mem_map] at hxr
      obtain ⟨y, -, rfl⟩ := hxr
      exact BSAMS.round2_round1 y
    constructor
    · constructor
      · intro hc
        rw [hmode] at hc
        cases hc
      · intro hc
        exact absurd hc h
    · intro m hm
      rw [hmode, Option.some.injEq] at hm
      subst hm
      rw [hx2]
      refine ⟨by rw [List.mem_map] at hxr ⊢; exact hxr, ?_, ?_⟩
      · intro v hv
        rw [hxcount]
        apply ListFacts.foldr_max_le
        rw [List.mem_map]
        exact ⟨v, hv, rfl⟩
      · intro v hv hvc
        apply StatEngine.listMin_le _ _ hx
        rw [List.mem_filter]
        refine ⟨hv, by simp only [decide_eq_true_eq]; rw [hvc, hxcount]⟩

/-- Witness for C6: `mode([45.51, 45.54, 46.0]) = 45.5` (1-decimal
grouping collapses the near-duplicates) and `mode([1,1,2,2,3]) = 1.0`
(tie-break picks the smaller), the latter fed through the general
theorem. -/
theorem claim_C6_witness :
    StatEngine.calculate_mode [(4551 : ℚ) / 100, 4554 / 100, 46] = some (455 / 10) ∧
    StatEngine.calculate_mode [(1 : ℚ), 1, 2, 2, 3] = some 1 ∧
    (1 : ℚ) ∈ [(1 : ℚ), 1, 2, 2, 3].map BSAMS.round1 := by
  have r1 : BSAMS.round1 ((4551 : ℚ) / 100) = 455 / 10 := by
    rw [BSAMS.round1_eq_low ((4551 : ℚ) / 100) 455 (by norm_num) (by norm_num)]
    norm_num
  have r2 : BSAMS.round1 ((4554 : ℚ) / 100) = 455 / 10 := by
    rw [BSAMS.round1_eq_low ((4554 : ℚ) / 100) 455 (by norm_num) (by norm_num)]
    norm_num
  have r46 : BSAMS.round1 ((46 : ℚ)) = 46 := by
    have h := BSAMS.round1_intCast (α := ℚ) 46
    norm_num at h
    exact h
  have e1 : BSAMS.round1 ((1 : ℚ)) = 1 := by
    have h := BSAMS.round1_intCast (α := ℚ) 1
    norm_num at h
    exact h
  have e2 : BSAMS.round1 ((2 : ℚ)) = 2 := by
    have h := BSAMS.round1_intCast (α := ℚ) 2
    norm_num at h
    exact h
  have e3 : BSAMS.round1 ((3 : ℚ)) = 3 := by
    have h := BSAMS.round1_intCast (α := ℚ) 3
    norm_num at h
    exact h
  have s455 : BSAMS.round2 ((91 : ℚ) / 2) = 91 / 2 := by
    rw [BSAMS.round2_eq_low ((91 : ℚ) / 2) 4550 (by norm_num) (by norm_num)]
    norm_num
  have s1 : BSAMS.round2 ((1 : ℚ)) = 1 := by
    have h := BSAMS.round2_intCast (α := ℚ) 1
    norm_num at h
    exact h
  have hA : StatEngine.calculate_mode [(4551 : ℚ) / 100, 4554 / 100, 46] =
      some (455 / 10) := by
    simp only [StatEngine.calculate_mode, List.map_cons, List.map_nil, r1, r2, r46,
      if_neg (by simp : ¬([(4551 : ℚ) / 100, 4554 / 100, 46] = []))]
    norm_num [List.count_cons, List.count_nil, StatEngine.listMin, List.filter,
      min_def, s455]
  have hB : StatEngine.calculate_mode [(1 : ℚ), 1, 2, 2, 3] = some 1 := by
    simp only [StatEngine.calculate_mode, List.map_cons, List.map_nil, e1, e2, e3,
      if_neg (by simp : ¬([(1 : ℚ), 1, 2, 2, 3] = []))]
    norm_num [List.count_cons, List.count_nil, StatEngine.listMin, List.filter,
      min_def, s1]
  exact ⟨hA, hB, ((claim_C6 [(1 : ℚ), 1, 2, 2, 3]).2 1 hB).1⟩

theorem StatEngine.ci95_isSome (values : List ℚ) (h2 : 2 ≤ values.length) :
    (StatEngine.calculate_confidence_interval_95 values).isSome := by
  have hne : ¬(values = [] ∨ values.length < 2) := by
    push_neg
    refine ⟨?_, by omega⟩
    intro hc
    subst hc
    simp at h2
  simp only [StatEngine.calculate_confidence_interval_95, if_neg hne]
  cases StatEngine.calculate_std_dev values false with
  | none => simp
  | some sd =>
    by_cases hsd : sd = 0 <;> simp [hsd]

/-- C2: `calculate_benchmarks` is `None` exactly on the empty list and
otherwise bundles `calculate_mean`, the population-mode
`calculate_std_dev`, `calculate_mode`, the 95% confidence-interval bounds
(both `None` exactly when fewer than 2 values) and `count = len(values)`. -/
theorem claim_C2 (values : List ℚ) :
    (StatEngine.calculate_benchmarks values = none ↔ values = []) ∧
    (∀ b, StatEngine.calculate_benchmarks values = some b →
      b.mean = StatEngine.calculate_mean values ∧
      b.std_dev = StatEngine.calculate_std_dev values true ∧
      b.mode = StatEngine.calculate_mode values ∧
      b.count = values.length ∧
      (values.length < 2 → b.ci_lower = none ∧ b.ci_upper = none) ∧
      (∀ p, StatEngine.calculate_confidence_interval_95 values = some p →
        b.ci_lower = some p.1 ∧ b.ci_upper = some p.2) ∧
      (2 ≤ values.length → b.ci_lower.isSome ∧ b.ci_upper.isSome)) := by
  constructor
  · constructor
    · intro h
      by_contra hc
      simp [StatEngine.calculate_benchmarks, hc] at h
    · intro h
      subst h
      simp [StatEngine.calculate_benchmarks]
  · intro b hb
    by_cases h : values = []
    · simp [StatEngine.calculate_benchmarks, h] at hb
    · simp only [StatEngine.calculate_benchmarks, if_neg h, Option.some.injEq] at hb
      subst hb
      refine ⟨rfl, rfl, rfl, rfl, ?_, ?_, ?_⟩
      · intro hlen
        have hci : StatEngine.calculate_confidence_interval_95 values = none := by
          simp only [StatEngine.calculate_confidence_interval_95,
            if_pos (Or.inr hlen)]
        simp [hci]
      · intro p hp
        simp [hp]
      · intro h2
        obtain ⟨p, hp⟩ :=
          Option.isSome_iff_exists.mp (StatEngine.ci95_isSome values h2)
        simp [hp]

/-- Witness for C2 at `[2, 2]`: the benchmark bundle is
`{mean 2, std_dev 0, mode 2, ci (2, 2), count 2}`, and the general theorem
applies with its hypotheses discharged. -/
theorem claim_C2_witness :
    StatEngine.calculate_benchmarks [(2 : ℚ), 2] =
      some ⟨some 2, some 0, some 2, some (2 : ℝ), some (2 : ℝ), 2⟩ ∧
    (StatEngine.calculate_benchmarks [(2 : ℚ), 2] = none ↔ [(2 : ℚ), 2] = []) ∧
    some (2 : ℚ) = StatEngine.calculate_mean [(2 : ℚ), 2] ∧
    (2 : ℕ) = [(2 : ℚ), 2].length := by
  have s2q : BSAMS.round2 ((2 : ℚ)) = 2 := by
    have h := BSAMS.round2_intCast (α := ℚ) 2
    norm_num at h
    exact h
  have s2r : BSAMS.round2 ((2 : ℝ)) = 2 := by
    have h := BSAMS.round2_intCast (α := ℝ) 2
    norm_num at h
    exact h
  have s0r : BSAMS.round2 ((0 : ℝ)) = 0 := by
    have h := BSAMS.round2_intCast (α := ℝ) 0
    norm_num at h
    exact h
  have e2q : BSAMS.round1 ((2 : ℚ)) = 2 := by
    have h := BSAMS.round1_intCast (α := ℚ) 2
    norm_num at h
    exact h
  have hvarf : StatEngine.rawVariance [(2 : ℚ), 2] false = 0 := by
    norm_num [StatEngine.rawVariance, StatEngine.rawMean]
  have hvart : StatEngine.rawVariance [(2 : ℚ), 2] true = 0 := by
    norm_num [StatEngine.rawVariance, StatEngine.rawMean]
  have hsdf : StatEngine.calculate_std_dev [(2 : ℚ), 2] false = some 0 := by
    simp only [StatEngine.calculate_std_dev, hvarf,
      if_neg (by simp : ¬([(2 : ℚ), 2] = [])),
      if_neg (by simp : ¬([(2 : ℚ), 2].length = 1))]
    norm_num [Real.sqrt_zero, s0r]
  have hsdt : StatEngine.calculate_std_dev [(2 : ℚ), 2] true = some 0 := by
    simp only [StatEngine.calculate_std_dev, hvart,
      if_neg (by simp : ¬([(2 : ℚ), 2] = [])),
      if_neg (by simp : ¬([(2 : ℚ), 2].length = 1))]
    norm_num [Real.sqrt_zero, s0r]
  have hmean : StatEngine.calculate_mean [(2 : ℚ), 2] = some 2 := by
    simp only [StatEngine.calculate_mean, if_neg (by simp : ¬([(2 : ℚ), 2] = []))]
    norm_num [s2q]
  have hmode : StatEngine.calculate_mode [(2 : ℚ), 2] = some 2 := by
    simp only [StatEngine.calculate_mode, List.map_cons, List.map_nil, e2q,
      if_neg (by simp : ¬([(2 : ℚ), 2] = []))]
    norm_num [List.count_cons, List.count_nil, StatEngine.listMin, List.filter,
      min_def, s2q]
  have hrm : StatEngine.rawMean [(2 : ℚ), 2] = 2 := by
    norm_num [StatEngine.rawMean]
  have hci : StatEngine.calculate_confidence_interval_95 [(2 : ℚ), 2] =
      some ((2 : ℝ), (2 : ℝ)) := by
    have hne : ¬([(2 : ℚ), 2] = [] ∨ [(2 : ℚ), 2].length < 2) := by simp
    simp only [StatEngine.calculate_confidence_interval_95, if_neg hne, hsdf, hrm]
    norm_num [s2r]
  have hbench : StatEngine.calculate_benchmarks [(2 : ℚ), 2] =
      some ⟨some 2, some 0, some 2, some (2 : ℝ), some (2 : ℝ), 2⟩ := by
    simp only [StatEngine.calculate_benchmarks,
      if_neg (by simp : ¬([(2 : ℚ), 2] = [])), hmean, hsdt, hmode, hci]
    simp
  refine ⟨hbench, (claim_C2 [(2 : ℚ), 2]).1, ?_⟩
  have h := (claim_C2 [(2 : ℚ), 2]).2 _ hbench
  exact ⟨h.1, h.2.2.2.1⟩

theorem BSAMS.round2_zero {α : Type*} [LinearOrderedField α] [FloorRing α] :
    BSAMS.round2 ((0 : α)) = 0 := by
  have h := BSAMS.round2_intCast (α := α) 0
  norm_num at h
  exact h

theorem StatEngine.ci95_eq (values : List ℚ)
    (hne : ¬(values = [] ∨ values.length < 2)) (s : ℝ)
    (hs : StatEngine.calculate_std_dev values false = some s) :
    StatEngine.calculate_confidence_interval_95 values =
      if s = 0 then
        some (BSAMS.round2 ((StatEngine.rawMean values : ℚ) : ℝ),
              BSAMS.round2 ((StatEngine.rawMean values : ℚ) : ℝ))
      else
        some (BSAMS.round2 (((StatEngine.rawMean values : ℚ) : ℝ) -
                196 / 100 * (s / Real.sqrt ((values.length : ℕ) : ℝ))),
              BSAMS.round2 (((StatEngine.rawMean values : ℚ) : ℝ) +
                196 / 100 * (s / Real.sqrt ((values.length : ℕ) : ℝ)))) := by
  unfold StatEngine.calculate_confidence_interval_95
  rw [if_neg hne, hs]

/-- Counterexample to C1 as stated: on `[0.003, 0.005, 0.005, 0.005]` the
unrounded sample standard deviation is exactly `0.001` (nonzero), so the
claimed formula puts the upper bound at
`round2(0.0045 + 1.96 * (0.001 / sqrt 4)) = 0.01`, and the claimed
`(mean, mean)` value would be `0.0045`; the code instead returns
`(0.0, 0.0)`: `calculate_std_dev` rounds the sample SD to `0.00`, the
`== 0` branch fires, and the mean itself is rounded to 2 decimal places. -/
theorem claim_C1_counterexample :
    StatEngine.calculate_confidence_interval_95
        [(3 : ℚ) / 1000, 5 / 1000, 5 / 1000, 5 / 1000] = some (0, 0) ∧
    StatEngine.rawMean [(3 : ℚ) / 1000, 5 / 1000, 5 / 1000, 5 / 1000] = 9 / 2000 ∧
    Real.sqrt (((StatEngine.rawVariance
        [(3 : ℚ) / 1000, 5 / 1000, 5 / 1000, 5 / 1000] false : ℚ)) : ℝ) = 1 / 1000 ∧
    BSAMS.round2 ((((9 : ℚ) / 2000 : ℚ) : ℝ) +
        196 / 100 * (((1 : ℝ) / 1000) / Real.sqrt ((4 : ℝ)))) = 1 / 100 ∧
    (0 : ℝ) ≠ 1 / 100 ∧ (0 : ℝ) ≠ (((9 : ℚ) / 2000 : ℚ) : ℝ) := by
  have hm : StatEngine.rawMean [(3 : ℚ) / 1000, 5 / 1000, 5 / 1000, 5 / 1000] =
      9 / 2000 := by
    norm_num [StatEngine.rawMean]
  have hvar : StatEngine.rawVariance
      [(3 : ℚ) / 1000, 5 / 1000, 5 / 1000, 5 / 1000] false = 1 / 1000000 := by
    norm_num [StatEngine.rawVariance, StatEngine.rawMean]
  have hsq : Real.sqrt (((1 / 1000000 : ℚ)) : ℝ) = 1 / 1000 := by
    rw [show ((((1 / 1000000 : ℚ)) : ℝ)) = ((1 : ℝ) / 1000) ^ 2 by push_cast; norm_num]
    exact Real.sqrt_sq (by norm_num)
  have hsd0 : StatEngine.calculate_std_dev
      [(3 : ℚ) / 1000, 5 / 1000, 5 / 1000, 5 / 1000] false = some 0 := by
    simp only [StatEngine.calculate_std_dev, hvar,
      if_neg (by simp : ¬([(3 : ℚ) / 1000, 5 / 1000, 5 / 1000, 5 / 1000] = [])),
      if_neg (by simp : ¬([(3 : ℚ) / 1000, 5 / 1000, 5 / 1000, 5 / 1000].length = 1))]
    rw [hsq]
    rw [BSAMS.round2_eq_low ((1 : ℝ) / 1000) 0 (by norm_num) (by norm_num)]
    norm_num
  have hq : Real.sqrt ((4 : ℝ)) = 2 := by
    rw [show (4 : ℝ) = (2 : ℝ) ^ 2 by norm_num]
    exact Real.sqrt_sq (by norm_num)
  refine ⟨?_, hm, by rw [hvar]; exact hsq, ?_, by norm_num, ?_⟩
  · rw [StatEngine.ci95_eq _ (by simp) 0 hsd0, if_pos rfl, hm]
    rw [BSAMS.round2_ratCast]
    rw [BSAMS.round2_eq_low ((9 : ℚ) / 2000) 0 (by norm_num) (by norm_num)]
    norm_num
  · rw [hq]
    rw [BSAMS.round2_eq_high _ 0 (by push_cast; norm_num) (by push_cast; norm_num)]
    norm_num
  · push_cast
    norm_num

/-- C1 (amended): for fewer than 2 values the CI is `None`; for 2 or more
values, with `s` the sample standard deviation **as produced by
`calculate_std_dev` (already rounded to 2 decimal places)**: if `s = 0`
the result is the 2-decimal-rounded mean in both positions, otherwise
`round2(mean ± 1.96 * (s / sqrt n))`; consequently a list of identical
values `x` yields `(x, x)` exactly when `x` equals its own 2-decimal
rounding. -/
theorem claim_C1_amended (values : List ℚ) :
    (values.length < 2 →
      StatEngine.calculate_confidence_interval_95 values = none) ∧
    (2 ≤ values.length →
      ∀ s, StatEngine.calculate_std_dev values false = some s →
        (s = 0 →
          StatEngine.calculate_confidence_interval_95 values =
            some (BSAMS.round2 ((StatEngine.rawMean values : ℚ) : ℝ),
                  BSAMS.round2 ((StatEngine.rawMean values : ℚ) : ℝ))) ∧
        (s ≠ 0 →
          StatEngine.calculate_confidence_interval_95 values =
            some (BSAMS.round2 (((StatEngine.rawMean values : ℚ) : ℝ) -
                    196 / 100 * (s / Real.sqrt ((values.length : ℕ) : ℝ))),
                  BSAMS.round2 (((StatEngine.rawMean values : ℚ) : ℝ) +
                    196 / 100 * (s / Real.sqrt ((values.length : ℕ) : ℝ)))))) ∧
    (∀ x : ℚ, BSAMS.round2 x = x →
      StatEngine.calculate_confidence_interval_95 [x, x, x, x] =
        some (((x : ℚ) : ℝ), ((x : ℚ) : ℝ))) := by
  refine ⟨?_, ?_, ?_⟩
  · intro hlen
    simp only [StatEngine.calculate_confidence_interval_95, if_pos (Or.inr hlen)]
  · intro h2 s hs
    have hne : ¬(values = [] ∨ values.length < 2) := by
      push_neg
      refine ⟨?_, by omega⟩
      intro hc
      subst hc
      simp at h2
    rw [StatEngine.ci95_eq values hne s hs]
    constructor
    · intro h0
      rw [if_pos h0]
    · intro h0
      rw [if_neg h0]
  · intro x hx
    have hm4 : StatEngine.rawMean [x, x, x, x] = x := by
      simp [StatEngine.rawMean]
      ring
    have hv : StatEngine.rawVariance [x, x, x, x] false = 0 := by
      simp [StatEngine.rawVariance, hm4]
    have hsd : StatEngine.calculate_std_dev [x, x, x, x] false = some 0 := by
      simp only [StatEngine.calculate_std_dev, hv,
        if_neg (by simp : ¬([x, x, x, x] = [])),
        if_neg (by simp : ¬([x, x, x, x].length = 1))]
      simp [BSAMS.round2_zero]
    rw [StatEngine.ci95_eq [x, x, x, x] (by simp) 0 hsd, if_pos rfl, hm4]
    rw [BSAMS.round2_ratCast, hx]

/-- Witness for the amended C1: a single value gives `None`; four copies
of `0.25` (a 2-decimal value) give `(0.25, 0.25)`; `[1, 2, 3]` has rounded
sample SD exactly `1.0`, so the formula branch gives
`round2(2 ∓ 1.96 * (1 / sqrt 3))`. -/
theorem claim_C1_amended_witness :
    StatEngine.calculate_confidence_interval_95 [(5 : ℚ)] = none ∧
    StatEngine.calculate_confidence_interval_95 [(1 : ℚ) / 4, 1 / 4, 1 / 4, 1 / 4] =
      some ((((1 : ℚ) / 4 : ℚ) : ℝ), (((1 : ℚ) / 4 : ℚ) : ℝ)) ∧
    StatEngine.calculate_confidence_interval_95 [(1 : ℚ), 2, 3] =
      some (BSAMS.round2 ((2 : ℝ) - 196 / 100 * ((1 : ℝ) / Real.sqrt ((3 : ℝ)))),
            BSAMS.round2 ((2 : ℝ) + 196 / 100 * ((1 : ℝ) / Real.sqrt ((3 : ℝ))))) := by
  refine ⟨(claim_C1_amended [(5 : ℚ)]).1 (by simp), ?_, ?_⟩
  · have hx : BSAMS.round2 ((1 : ℚ) / 4) = 1 / 4 := by
      rw [BSAMS.round2_eq_low ((1 : ℚ) / 4) 25 (by norm_num) (by norm_num)]
      norm_num
    exact (claim_C1_amended [(1 : ℚ) / 4]).2.2 ((1 : ℚ) / 4) hx
  · have hm : StatEngine.rawMean [(1 : ℚ), 2, 3] = 2 := by
      norm_num [StatEngine.rawMean]
    have hvar : StatEngine.rawVariance [(1 : ℚ), 2, 3] false = 1 := by
      norm_num [StatEngine.rawVariance, StatEngine.rawMean]
    have hsd1 : StatEngine.calculate_std_dev [(1 : ℚ), 2, 3] false = some 1 := by
      simp only [StatEngine.calculate_std_dev, hvar,
        if_neg (by simp : ¬([(1 : ℚ), 2, 3] = [])),
        if_neg (by simp : ¬([(1 : ℚ), 2, 3].length = 1))]
      rw [show (((1 : ℚ)) : ℝ) = (1 : ℝ) by norm_num, Real.sqrt_one]
      have h := BSAMS.round2_intCast (α := ℝ) 1
      norm_num at h
      rw [h]
    have h := ((claim_C1_amended [(1 : ℚ), 2, 3]).2.1 (by norm_num) 1 hsd1).2
      (by norm_num)
    rw [h, hm]
    norm_num

theorem TrainingLoad.mem_windowDates (s e d : ℤ) :
    d ∈ TrainingLoad.windowDates s e ↔ s ≤ d ∧ d ≤ e := by
  unfold TrainingLoad.windowDates
  simp only [List.mem_map, List.mem_range]
  constructor
  · rintro ⟨i, hi, rfl⟩
    omega
  · rintro ⟨h1, h2⟩
    refine ⟨(d - s).toNat, by omega, by omega⟩

theorem TrainingLoad.windowDates_nodup (s e : ℤ) :
    (TrainingLoad.windowDates s e).Nodup := by
  unfold TrainingLoad.windowDates
  apply List.Nodup.map
  · intro a b hab
    simp only at hab
    omega
  · exact List.nodup_range _

theorem TrainingLoad.length_windowDates (s e : ℤ) :
    (TrainingLoad.windowDates s e).length = (e + 1 - s).toNat := by
  unfold TrainingLoad.windowDates
  rw [List.length_map, List.length_range]

/-- Counterexample to C3 as stated: with one session on day 0 whose `srpe`
key is absent (`rpe = 5`, `duration = 10`) and one on day 100, and window
`[0, 0]`, the claim prescribes the single entry `⟨0, 50, 1⟩` (one entry
per window day, no others, `rpe * duration` fallback for the absent key);
the code instead returns `[⟨0, 0, 1⟩, ⟨100, 7, 1⟩]` — the absent key
contributes the `.get` default 0, and the out-of-window session creates an
extra entry. -/
theorem claim_C3_counterexample :
    TrainingLoad.calculate_daily_loads Examples.sessOutside 0 0 =
      [⟨0, 0, 1⟩, ⟨100, 7, 1⟩] ∧
    TrainingLoad.calculate_daily_loads Examples.sessOutside 0 0 ≠ [⟨0, 50, 1⟩] := by
  constructor
  · decide
  · decide

/-- C3 (amended): `calculate_daily_loads` returns a list strictly sorted
ascending by date with exactly one entry per date in the union of the
window `[startDate, endDate]` and the session dates; each entry's
`total_srpe` sums the contributions of that day's sessions (`srpe` when
present and non-null, `rpe * duration` when `srpe` is present but null,
`0` when the `srpe` key is absent) and its `session_count` counts them;
when every session date lies in the window the list has exactly
`endDate - startDate + 1` entries, and with no sessions at all every
entry is zero-filled. -/
theorem claim_C3_amended (sessions : List TrainingLoad.Session) (s e : ℤ) :
    List.Pairwise (fun a b => a.date < b.date)
      (TrainingLoad.calculate_daily_loads sessions s e) ∧
    (∀ d : ℤ,
      (∃ dl ∈ TrainingLoad.calculate_daily_loads sessions s e, dl.date = d) ↔
        ((s ≤ d ∧ d ≤ e) ∨ d ∈ sessions.map (·.session_date))) ∧
    (∀ dl ∈ TrainingLoad.calculate_daily_loads sessions s e,
      dl.total_srpe = ((sessions.filter (fun x => x.session_date = dl.date)).map
        TrainingLoad.sessionSrpe).sum ∧
      dl.session_count =
        (sessions.filter (fun x => x.session_date = dl.date)).length) ∧
    ((∀ x ∈ sessions, s ≤ x.session_date ∧ x.session_date ≤ e) →
      (TrainingLoad.calculate_daily_loads sessions s e).length =
        (e + 1 - s).toNat) ∧
    (sessions = [] →
      (TrainingLoad.calculate_daily_loads sessions s e).length =
        (e + 1 - s).toNat ∧
      ∀ dl ∈ TrainingLoad.calculate_daily_loads sessions s e,
        dl.total_srpe = 0 ∧ dl.session_count = 0) := by
  have hperm : List.Perm
      ((((sessions.map (·.session_date)) ++
        TrainingLoad.windowDates s e).dedup).insertionSort (· ≤ ·))
      (((sessions.map (·.session_date)) ++ TrainingLoad.windowDates s e).dedup) :=
    List.perm_insertionSort _ _
  have hnodup : ((((sessions.map (·.session_date)) ++
      TrainingLoad.windowDates s e).dedup).insertionSort (· ≤ ·)).Nodup :=
    hperm.nodup_iff.mpr (List.nodup_dedup _)
  have hsorted : List.Sorted (· ≤ ·)
      ((((sessions.map (·.session_date)) ++
        TrainingLoad.windowDates s e).dedup).insertionSort (· ≤ ·)) :=
    List.sorted_insertionSort _ _
  have hmemS : ∀ d : ℤ, d ∈ (((sessions.map (·.session_date)) ++
      TrainingLoad.windowDates s e).dedup).insertionSort (· ≤ ·) ↔
      ((s ≤ d ∧ d ≤ e) ∨ d ∈ sessions.map (·.session_date)) := by
    intro d
    rw [List.mem_insertionSort, List.mem_dedup, List.mem_append,
      TrainingLoad.mem_windowDates]
    tauto
  refine ⟨?_, ?_, ?_, ?_, ?_⟩
  · unfold TrainingLoad.calculate_daily_loads
    rw [List.pairwise_map]
    have hpair : List.Pairwise (fun a b : ℤ => a ≤ b ∧ a ≠ b)
        ((((sessions.map (·.session_date)) ++
          TrainingLoad.windowDates s e).dedup).insertionSort (· ≤ ·)) :=
      hsorted.and hnodup
    exact hpair.imp (fun h => lt_of_le_of_ne h.1 h.2)
  · intro d
    unfold TrainingLoad.calculate_daily_loads
    rw [← hmemS d]
    constructor
    · rintro ⟨dl, hdl, rfl⟩
      rw [List.mem_map] at hdl
      obtain ⟨d0, hd0, rfl⟩ := hdl
      exact hd0
    · intro hd
      refine ⟨_, List.mem_map_of_mem _ hd, rfl⟩
  · intro dl hdl
    unfold TrainingLoad.calculate_daily_loads at hdl
    rw [List.mem_map] at hdl
    obtain ⟨d0, -, rfl⟩ := hdl
    exact ⟨rfl, rfl⟩
  · intro hin
    unfold TrainingLoad.calculate_daily_loads
    rw [List.length_map, List.length_insertionSort]
    have hpermW : List.Perm
        (((sessions.map (·.session_date)) ++
          TrainingLoad.windowDates s e).dedup) (TrainingLoad.windowDates s e) := by
      apply List.perm_of_nodup_nodup_toFinset_eq (List.nodup_dedup _)
        (TrainingLoad.windowDates_nodup s e)
      apply List.toFinset.ext
      intro x
      rw [List.mem_dedup, List.mem_append]
      constructor
      · rintro (hx | hx)
        · rw [List.mem_map] at hx
          obtain ⟨y, hy, rfl⟩ := hx
          rw [TrainingLoad.mem_windowDates]
          exact hin y hy
        · exact hx
      · intro hx
        exact Or.inr hx
    rw [hpermW.length_eq, TrainingLoad.length_windowDates]
  · intro hs
    subst hs
    constructor
    · unfold TrainingLoad.calculate_daily_loads
      rw [List.length_map, List.length_insertionSort]
      simp only [List.map_nil, List.nil_append]
      rw [List.dedup_eq_self.mpr (TrainingLoad.windowDates_nodup s e)]
      exact TrainingLoad.length_windowDates s e
    · intro dl hdl
      unfold TrainingLoad.calculate_daily_loads at hdl
      rw [List.mem_map] at hdl
      obtain ⟨d0, -, rfl⟩ := hdl
      simp

/-- Witness for the amended C3: two same-day sessions (stored srpe 30,
null srpe with `rpe*duration = 50`) inside the window `[0, 2]` produce
`[⟨0, 80, 2⟩, ⟨1, 0, 0⟩, ⟨2, 0, 0⟩]`, with exactly 3 entries, as does the
empty session list. -/
theorem claim_C3_amended_witness :
    TrainingLoad.calculate_daily_loads Examples.sessInside 0 2 =
      [⟨0, 80, 2⟩, ⟨1, 0, 0⟩, ⟨2, 0, 0⟩] ∧
    (TrainingLoad.calculate_daily_loads Examples.sessInside 0 2).length =
      ((2 : ℤ) + 1 - 0).toNat ∧
    (TrainingLoad.calculate_daily_loads [] 0 2).length = ((2 : ℤ) + 1 - 0).toNat :=
  ⟨by decide,
   (claim_C3_amended Examples.sessInside 0 2).2.2.2.1 (by decide),
   ((claim_C3_amended [] 0 2).2.2.2.2 rfl).1⟩

/-- C7 (code bug exhibited): the claim describes the intended — and
repository-test-asserted — behaviour, but `_process_row` reads
`self.mapping.gender_column`, a field `CSVColumnMapping` does not define,
so every event-producing row raises `AttributeError` and the whole
ingestion call aborts.  First conjunct: a valid data row followed by a
malformed-date row makes the call abort instead of returning the collected
row errors.  Second conjunct: with no event-producing row the machinery
the claim describes does work — the malformed date on data row 3 (header
is row 1) is recorded as `{row: 3, reason: ...}` and processing continues.
Remaining conjuncts: the date parser trims whitespace, tries `/`, `-`,
`.` day-first in that order, parses day 13 as a day (never swapped), and
fails with an invalid-date-format error when nothing matches. -/
theorem claim_C7 :
    CSVIngestion.process_csv CSVIngestion.defaultMapping
        [Examples.rowValid, Examples.rowBadDate] =
      .error (.attributeError
        ("CSVColumnMapping object has no attribute gender_column")) ∧
    CSVIngestion.process_csv CSVIngestion.defaultMapping
        [Examples.rowMassOnly, Examples.rowBadDate] =
      .ok ([], [⟨3, ("Invalid date format: invalid-date. Expected DD/MM/YYYY")⟩]) ∧
    CSVIngestion.parse_date_ddmmyyyy ("13/01/2024") = .ok ⟨2024, 1, 13⟩ ∧
    CSVIngestion.parse_date_ddmmyyyy ("  15/01/2024  ") = .ok ⟨2024, 1, 15⟩ ∧
    CSVIngestion.parse_date_ddmmyyyy ("15-01-2024") = .ok ⟨2024, 1, 15⟩ ∧
    CSVIngestion.parse_date_ddmmyyyy ("15.01.2024") = .ok ⟨2024, 1, 15⟩ ∧
    CSVIngestion.parse_date_ddmmyyyy ("2024-01-15") =
      .error ("Invalid date format: 2024-01-15. Expected DD/MM/YYYY") := by
  refine ⟨?_, ?_, ?_, ?_, ?_, ?_, ?_⟩ <;> decide

theorem CSVIngestion.lookupKey_cons (k0 : String) (v0 : CSVIngestion.MetricVal)
    (rest : CSVIngestion.Metrics) (k' : String) :
    CSVIngestion.lookupKey ((k0, v0) :: rest) k' =
      if k0 = k' then some v0 else CSVIngestion.lookupKey rest k' := by
  simp only [CSVIngestion.lookupKey, List.find?]
  by_cases h : k0 = k'
  · simp [h]
  · simp [h]

theorem CSVIngestion.lookupKey_setKey (m : CSVIngestion.Metrics) (k k' : String)
    (v : CSVIngestion.MetricVal) :
    CSVIngestion.lookupKey (CSVIngestion.setKey m k v) k' =
      if k' = k then some v else CSVIngestion.lookupKey m k' := by
  induction m with
  | nil =>
    rw [show CSVIngestion.setKey [] k v = [(k, v)] from rfl,
      CSVIngestion.lookupKey_cons]
    by_cases h : k' = k
    · simp [h]
    · rw [if_neg (fun hc => h hc.symm), if_neg h]
  | cons p rest ih =>
    obtain ⟨k0, v0⟩ := p
    by_cases h0 : k0 = k
    · subst h0
      rw [show CSVIngestion.setKey ((k0, v0) :: rest) k0 v = (k0, v) :: rest from by
        simp [CSVIngestion.setKey]]
      rw [CSVIngestion.lookupKey_cons, CSVIngestion.lookupKey_cons]
      by_cases h1 : k0 = k'
      · subst h1
        simp
      · rw [if_neg h1, if_neg (fun hc : k' = k0 => h1 hc.symm), if_neg h1]
    · rw [show CSVIngestion.setKey ((k0, v0) :: rest) k v =
          (k0, v0) :: CSVIngestion.setKey rest k v from by
        simp [CSVIngestion.setKey, h0]]
      rw [CSVIngestion.lookupKey_cons, CSVIngestion.lookupKey_cons]
      by_cases h1 : k0 = k'
      · subst h1
        rw [if_pos rfl, if_neg (fun hc : k0 = k => h0 hc), if_pos rfl]
      · rw [if_neg h1, if_neg h1, ih]

theorem CSVIngestion.extractStep_out_of_range (row : CSVIngestion.Row)
    (acc : CSVIngestion.Metrics) (e : CSVIngestion.MetricMapEntry)
    (sv : String) (v : ℚ) (h1 : CSVIngestion.rowGet row e.column = some sv)
    (h2 : CSVIngestion.parse_numeric sv = .ok (some v))
    (h3 : v < 0 ∨ v > 500) :
    CSVIngestion.extractStep row acc e = acc := by
  unfold CSVIngestion.extractStep
  rw [h1]
  dsimp only
  rw [h2]
  dsimp only
  rw [if_pos h3]

theorem CSVIngestion.extractStep_testType (row : CSVIngestion.Row)
    (acc : CSVIngestion.Metrics) (e : CSVIngestion.MetricMapEntry)
    (hk : e.metric_key ≠ ("test_type")) :
    CSVIngestion.lookupKey (CSVIngestion.extractStep row acc e) ("test_type") =
      if CSVIngestion.entrySucceeds row e = true then
        (match CSVIngestion.lookupKey acc ("test_type") with
         | some w => some w
         | none => some (.str e.test_type))
      else CSVIngestion.lookupKey acc ("test_type") := by
  unfold CSVIngestion.extractStep CSVIngestion.entrySucceeds
  cases hrg : CSVIngestion.rowGet row e.column with
  | none =>
    dsimp only
    cases CSVIngestion.lookupKey acc ("test_type") <;> simp
  | some sv =>
    dsimp only
    cases hpn : CSVIngestion.parse_numeric sv with
    | error msg =>
      dsimp only
      cases CSVIngestion.lookupKey acc ("test_type") <;> simp
    | ok ov =>
      cases ov with
      | none =>
        dsimp only
        cases CSVIngestion.lookupKey acc ("test_type") <;> simp
      | some v =>
        dsimp only
        by_cases hr : v < 0 ∨ v > 500
        · rw [if_pos hr]
          have hd : decide (0 ≤ v ∧ v ≤ 500) = false := by
            rw [decide_eq_false_iff_not]
            intro hc
            rcases hr with hr | hr
            · linarith [hc.1]
            · linarith [hc.2]
          rw [hd]
          simp
        · rw [if_neg hr]
          have hd : decide (0 ≤ v ∧ v ≤ 500) = true := by
            rw [decide_eq_true_eq]
            push_neg at hr
            exact ⟨hr.1, hr.2⟩
          rw [hd]
          simp only [if_true]
          rw [CSVIngestion.lookupKey_setKey,
            if_neg (fun hc : ("test_type") = e.metric_key => hk hc.symm)]
          cases hacc : CSVIngestion.lookupKey acc ("test_type") with
          | none =>
            simp [CSVIngestion.lookupKey_setKey]
          | some w =>
            simp [hacc]

theorem CSVIngestion.extractFrom_testType (entries : List CSVIngestion.MetricMapEntry)
    (row : CSVIngestion.Row) (acc : CSVIngestion.Metrics)
    (hk : ∀ e ∈ entries, e.metric_key ≠ ("test_type")) :
    CSVIngestion.lookupKey (CSVIngestion.extractFrom entries row acc) ("test_type") =
      match CSVIngestion.lookupKey acc ("test_type") with
      | some w => some w
      | none =>
        (CSVIngestion.firstHit entries row).map (fun e => .str e.test_type) := by
  induction entries generalizing acc with
  | nil =>
    simp only [CSVIngestion.extractFrom, List.foldl_nil, CSVIngestion.firstHit,
      List.find?_nil]
    cases CSVIngestion.lookupKey acc ("test_type") <;> simp
  | cons e t ih =>
    have hke : e.metric_key ≠ ("test_type") := hk e (List.mem_cons_self _ _)
    have hkt : ∀ x ∈ t, x.metric_key ≠ ("test_type") :=
      fun x hx => hk x (List.mem_cons_of_mem _ hx)
    simp only [CSVIngestion.extractFrom, List.foldl_cons] at ih ⊢
    rw [ih (CSVIngestion.extractStep row acc e) hkt]
    rw [CSVIngestion.extractStep_testType row acc e hke]
    have hfh : CSVIngestion.firstHit (e :: t) row =
        if CSVIngestion.entrySucceeds row e = true then some e
        else CSVIngestion.firstHit t row := by
      simp only [CSVIngestion.firstHit, List.find?_cons]
      cases CSVIngestion.entrySucceeds row e <;> simp
    rw [hfh]
    by_cases hs : CSVIngestion.entrySucceeds row e = true
    · rw [if_pos hs, if_pos hs]
      cases CSVIngestion.lookupKey acc ("test_type") <;> simp
    · rw [if_neg hs, if_neg hs]

/-- C8: metric extraction (i) leaves the result unchanged for a configured
column whose parsed value lies outside `[0, 500]` (silent drop), (ii) tags
`test_type` with the test type of the FIRST mapping entry that yields an
in-range metric — later entries never overwrite it (for mappings whose
metric keys do not collide with the literal key `test_type`, true of every
real mapping) — and (iii) a row whose extraction yields no metrics
produces no event and no error even when it carries a valid date. -/
theorem claim_C8 :
    (∀ (row : CSVIngestion.Row) (acc : CSVIngestion.Metrics)
        (pre post : List CSVIngestion.MetricMapEntry)
        (e : CSVIngestion.MetricMapEntry) (sv : String) (v : ℚ),
      CSVIngestion.rowGet row e.column = some sv →
      CSVIngestion.parse_numeric sv = .ok (some v) →
      (v < 0 ∨ v > 500) →
      CSVIngestion.extractFrom (pre ++ e :: post) row acc =
        CSVIngestion.extractFrom (pre ++ post) row acc) ∧
    (∀ (m : CSVIngestion.ColumnMapping) (row : CSVIngestion.Row),
      (∀ e ∈ m.metric_columns, e.metric_key ≠ ("test_type")) →
      CSVIngestion.lookupKey (CSVIngestion.extract_metrics m row) ("test_type") =
        (CSVIngestion.firstHit m.metric_columns row).map
          (fun e => CSVIngestion.MetricVal.str e.test_type)) ∧
    (∀ (m : CSVIngestion.ColumnMapping) (row : CSVIngestion.Row) (dv : String)
        (d : CSVIngestion.DateYMD),
      CSVIngestion.rowGet row m.date_column = some dv →
      (CSVIngestion.trimStr dv).data ≠ [] →
      CSVIngestion.parse_date_ddmmyyyy dv = .ok d →
      CSVIngestion.extract_metrics m row = [] →
      CSVIngestion._process_row m row = .ok none) := by
  refine ⟨?_, ?_, ?_⟩
  · intro row acc pre post e sv v h1 h2 h3
    unfold CSVIngestion.extractFrom
    rw [List.foldl_append, List.foldl_append, List.foldl_cons,
      CSVIngestion.extractStep_out_of_range row _ e sv v h1 h2 h3]
  · intro m row hk
    unfold CSVIngestion.extract_metrics
    rw [CSVIngestion.extractFrom_testType _ _ _ hk]
    rfl
  · intro m row dv d hget hne hdate hmets
    unfold CSVIngestion._process_row
    rw [hget]
    dsimp only
    rw [if_neg hne, hdate]
    dsimp only
    rw [hmets]
    rfl

/-- Witness for C8: a 600-valued metric column contributes nothing; on a
row carrying both `RSI` and `CMJ Height (cm)` the default mapping's first
successful entry (`CMJ Height (cm)`, mapping order) tags
`test_type = "CMJ"`; a row with a valid date and only a body mass is
skipped with no event and no error. -/
theorem claim_C8_witness :
    CSVIngestion.extractFrom
        [⟨("Jump"), ("JT"), ("jump_m")⟩] [(("Jump"), ("600"))] [] =
      CSVIngestion.extractFrom [] [(("Jump"), ("600"))] [] ∧
    CSVIngestion.lookupKey
        (CSVIngestion.extract_metrics CSVIngestion.defaultMapping
          [(("RSI"), ("2")), (("CMJ Height (cm)"), ("45"))]) ("test_type") =
      some (.str ("CMJ")) ∧
    CSVIngestion._process_row CSVIngestion.defaultMapping Examples.rowMassOnly =
      .ok none := by
  refine ⟨?_, ?_, ?_⟩
  · exact claim_C8.1 [(("Jump"), ("600"))] [] [] []
      ⟨("Jump"), ("JT"), ("jump_m")⟩ ("600") 600 (by decide) (by decide)
      (by norm_num)
  · exact (claim_C8.2.1 CSVIngestion.defaultMapping
      [(("RSI"), ("2")), (("CMJ Height (cm)"), ("45"))] (by decide)).trans
      (by decide)
  · exact claim_C8.2.2 CSVIngestion.defaultMapping Examples.rowMassOnly
      ("15/01/2024") ⟨2024, 1, 15⟩ (by decide) (by decide) (by decide) (by decide)

/-- C9: the two endpoints deliberately differ in empty-result policy.  The
benchmarks endpoint returns the zero-count, all-null response as a SUCCESS
for an empty reference population (first conjunct) and, more generally,
whenever the gathered metric-sample set is empty (second conjunct).  The
single-athlete Z-score endpoint instead fails with a 404/400-class error
for each emptiness: athlete not found, no events, metric not in the event,
empty reference population, and no reference data for the metric. -/
theorem claim_C9 :
    (∀ (events : List Analysis.EventRow) (metric : String)
        (group : Analysis.RefGroup) (genderP : Option String)
        (massBandP : Option ℤ),
      (group = .gender → genderP ≠ none) →
      (group = .massBand → massBandP ≠ none) →
      Analysis.get_benchmarks_core [] events metric group genderP massBandP =
        .ok (Analysis.zeroBench group metric)) ∧
    (∀ (athletes : List Analysis.AthleteRow) (events : List Analysis.EventRow)
        (metric : String) (group : Analysis.RefGroup) (genderP : Option String)
        (massBandP : Option ℤ),
      (group = .gender → genderP ≠ none) →
      (group = .massBand → massBandP ≠ none) →
      Analysis.benchValues athletes events metric group genderP massBandP = [] →
      Analysis.get_benchmarks_core athletes events metric group genderP massBandP =
        .ok (Analysis.zeroBench group metric)) ∧
    (∀ (g : String) (eventMetrics : Option CSVIngestion.Metrics)
        (refA : List Analysis.AthleteRow) (refE : List Analysis.EventRow)
        (metric : String) (group : Analysis.RefGroup),
      Analysis.get_athlete_zscore_core false g eventMetrics refA refE metric group =
        .error ⟨404, "Athlete not found"⟩) ∧
    (∀ (g : String) (refA : List Analysis.AthleteRow)
        (refE : List Analysis.EventRow) (metric : String)
        (group : Analysis.RefGroup),
      Analysis.get_athlete_zscore_core true g none refA refE metric group =
        .error ⟨404, "No events found for athlete"⟩) ∧
    (∀ (g : String) (em : CSVIngestion.Metrics) (refA : List Analysis.AthleteRow)
        (refE : List Analysis.EventRow) (metric : String)
        (group : Analysis.RefGroup),
      CSVIngestion.lookupKey em metric = none →
      Analysis.get_athlete_zscore_core true g (some em) refA refE metric group =
        .error ⟨404, "Metric not found in event"⟩) ∧
    (∀ (g : String) (em : CSVIngestion.Metrics) (refA : List Analysis.AthleteRow)
        (refE : List Analysis.EventRow) (metric : String)
        (group : Analysis.RefGroup) (mv : CSVIngestion.MetricVal) (v : ℚ),
      CSVIngestion.lookupKey em metric = some mv →
      Analysis.coerceNum mv = some v →
      ¬(group = .massBand ∧ Analysis.bodyMassOf em = none) →
      Analysis.zscoreRefs refA group g = [] →
      Analysis.get_athlete_zscore_core true g (some em) refA refE metric group =
        .error ⟨400, "No athletes in reference group"⟩) ∧
    (∀ (g : String) (em : CSVIngestion.Metrics) (refA : List Analysis.AthleteRow)
        (refE : List Analysis.EventRow) (metric : String)
        (group : Analysis.RefGroup) (mv : CSVIngestion.MetricVal) (v : ℚ),
      CSVIngestion.lookupKey em metric = some mv →
      Analysis.coerceNum mv = some v →
      ¬(group = .massBand ∧ Analysis.bodyMassOf em = none) →
      Analysis.zscoreRefs refA group g ≠ [] →
      Analysis.zscoreValues refA refE group g em metric = [] →
      Analysis.get_athlete_zscore_core true g (some em) refA refE metric group =
        .error ⟨400, "No data in reference group for this metric"⟩) := by
  refine ⟨?_, ?_, ?_, ?_, ?_, ?_, ?_⟩
  · intro events metric group genderP massBandP hg hm
    have hg2 : ¬(group = Analysis.RefGroup.gender ∧ genderP = none) :=
      fun hc => hg hc.1 hc.2
    have hm2 : ¬(group = Analysis.RefGroup.massBand ∧ massBandP = none) :=
      fun hc => hm hc.1 hc.2
    unfold Analysis.get_benchmarks_core
    rw [if_neg hg2, if_neg hm2, if_pos rfl]
  · intro athletes events metric group genderP massBandP hg hm hv
    have hg2 : ¬(group = Analysis.RefGroup.gender ∧ genderP = none) :=
      fun hc => hg hc.1 hc.2
    have hm2 : ¬(group = Analysis.RefGroup.massBand ∧ massBandP = none) :=
      fun hc => hm hc.1 hc.2
    unfold Analysis.get_benchmarks_core
    rw [if_neg hg2, if_neg hm2]
    by_cases ha : athletes = []
    · rw [if_pos ha]
    · rw [if_neg ha]
      by_cases hi : Analysis.benchIds athletes group genderP = []
      · rw [if_pos hi]
      · rw [if_neg hi]
        by_cases he : events.filter
            (fun e => e.athlete_id ∈ Analysis.benchIds athletes group genderP) = []
        · rw [if_pos he]
        · rw [if_neg he]
          try dsimp only
          rw [if_pos hv]
  · intro g eventMetrics refA refE metric group
    unfold Analysis.get_athlete_zscore_core
    rw [if_pos (by simp)]
  · intro g refA refE metric group
    unfold Analysis.get_athlete_zscore_core
    rw [if_neg (by simp)]
  · intro g em refA refE metric group hlk
    unfold Analysis.get_athlete_zscore_core
    rw [if_neg (by simp)]
    try dsimp only
    rw [hlk]
  · intro g em refA refE metric group mv v hlk hcv hmb href
    unfold Analysis.get_athlete_zscore_core
    rw [if_neg (by simp)]
    try dsimp only
    rw [hlk]
    try dsimp only
    rw [hcv]
    try dsimp only
    rw [if_neg hmb, if_pos href]
  · intro g em refA refE metric group mv v hlk hcv hmb href hval
    unfold Analysis.get_athlete_zscore_core
    rw [if_neg (by simp)]
    try dsimp only
    rw [hlk]
    try dsimp only
    rw [hcv]
    try dsimp only
    rw [if_neg hmb, if_neg href]
    try dsimp only
    rw [if_pos hval]

/-- Witness for C9 at concrete inputs: an empty coach cohort and an empty
sample set each give the zero benchmark response as a success, while the
Z-score endpoint fails with 404 (athlete/events/metric missing) or 400
(empty reference population, no reference data). -/
theorem claim_C9_witness :
    Analysis.get_benchmarks_core [] [] ("height_cm") .cohort none none =
      .ok (Analysis.zeroBench .cohort ("height_cm")) ∧
    Analysis.get_benchmarks_core [⟨("a1"), ("male")⟩] [] ("height_cm")
        .cohort none none = .ok (Analysis.zeroBench .cohort ("height_cm")) ∧
    Analysis.get_athlete_zscore_core false ("male") none [] [] ("height_cm")
        .cohort = .error ⟨404, "Athlete not found"⟩ ∧
    Analysis.get_athlete_zscore_core true ("male") none [] [] ("height_cm")
        .cohort = .error ⟨404, "No events found for athlete"⟩ ∧
    Analysis.get_athlete_zscore_core true ("male")
        (some [(("height_cm"), .num 45)]) [] [] ("other") .cohort =
      .error ⟨404, "Metric not found in event"⟩ ∧
    Analysis.get_athlete_zscore_core true ("male")
        (some [(("height_cm"), .num 45)]) [] [] ("height_cm") .cohort =
      .error ⟨400, "No athletes in reference group"⟩ ∧
    Analysis.get_athlete_zscore_core true ("male")
        (some [(("height_cm"), .num 45)]) [⟨("a1"), ("male")⟩] []
        ("height_cm") .cohort =
      .error ⟨400, "No data in reference group for this metric"⟩ :=
  ⟨claim_C9.1 [] ("height_cm") .cohort none none (by decide) (by decide),
   claim_C9.2.1 [⟨("a1"), ("male")⟩] [] ("height_cm") .cohort none none
     (by decide) (by decide) (by decide),
   claim_C9.2.2.1 ("male") none [] [] ("height_cm") .cohort,
   claim_C9.2.2.2.1 ("male") [] [] ("height_cm") .cohort,
   claim_C9.2.2.2.2.1 ("male") [(("height_cm"), .num 45)] [] [] ("other")
     .cohort (by decide),
   claim_C9.2.2.2.2.2.1 ("male") [(("height_cm"), .num 45)] [] []
     ("height_cm") .cohort (.num 45) 45 (by decide) (by decide) (by decide)
     (by decide),
   claim_C9.2.2.2.2.2.2 ("male") [(("height_cm"), .num 45)]
     [⟨("a1"), ("male")⟩] [] ("height_cm") .cohort (.num 45) 45 (by decide)
     (by decide) (by decide) (by decide) (by decide)⟩
